import Mathlib

/-!
# ENet Unix platform layer (`unix.c`)

A shallow embedding of the address codec, the clock, the vectored I/O result
handling, host resolution and the readiness wait of `unix.c`, together with
the properties the specification states about them.

Conventions of the embedding:

* C integers are `Nat`/`Int`; a conversion to `enet_uint32` is an explicit
  `% 4294967296`.
* A `struct sockaddr_storage` is a tagged union on `sa_family`.
* System calls are not code of the library. The reading of `gettimeofday` and
  the outcome of `getaddrinfo` are explicit arguments; `bind`, `sendmsg` and
  `recvmsg` are function arguments applied to what the code passes them.
* `poll` and `select` are modelled over one kernel (`Kernel`): for the longest
  time a call may wait it gives the report (`Readiness`) the call returns
  with: failure of the call and, per descriptor, open, readable, writable,
  error pending, hang-up pending. `poll` reports an error or a hang-up as
  `POLLERR`/`POLLHUP` and a descriptor that is not open as `POLLNVAL`;
  `select` keeps a descriptor with an error pending in the read and write
  sets, one with a hang-up pending in the read set, and fails on a descriptor
  that is not open. `FD_SET` and `FD_ISSET` are defined below `FD_SETSIZE`
  only, so the `select` branch returns an `Option`.
* Numeric values of system constants (`AF_INET`, `POLLIN`, ...) are those of
  Linux; the properties do not depend on the particular values.
* The compile-time switch `HAS_MSGHDR_FLAGS` and the host byte order are
  explicit `Bool` arguments; the two branches under `HAS_POLL` are two
  definitions.
* Declarations of the header `enet2/enet.h`, which is not part of the sources
  at hand, are modelled from the specification and marked as such.
-/

namespace ENet

/-! ## Clock -/

/-- The `struct timeval` filled in by `gettimeofday`. -/
structure timeval where
  tv_sec : Int
  tv_usec : Int
  deriving DecidableEq, Repr

/-- A reading as `gettimeofday` produces it: seconds since the epoch and a
microsecond part below one million. -/
def timeval.normalised (tv : timeval) : Prop :=
  0 ≤ tv.tv_sec ∧ 0 ≤ tv.tv_usec ∧ tv.tv_usec < 1000000

instance (tv : timeval) : Decidable tv.normalised := by
  unfold timeval.normalised; infer_instance

/-- The expression `timeVal.tv_sec * 1000 + timeVal.tv_usec / 1000` of
`enet_time_get` and `enet_time_set` (C division truncates). -/
def timeval.millis (tv : timeval) : Int :=
  tv.tv_sec * 1000 + Int.tdiv tv.tv_usec 1000

/-- Chronological order of two wall-clock readings. -/
def timeval.le (a b : timeval) : Prop :=
  a.tv_sec < b.tv_sec ∨ (a.tv_sec = b.tv_sec ∧ a.tv_usec ≤ b.tv_usec)

instance (a b : timeval) : Decidable (timeval.le a b) := by
  unfold timeval.le; infer_instance

/-- Conversion of a C integer to `enet_uint32`. -/
def to_uint32 (x : Int) : Nat := (x % 4294967296).toNat

/-- `enet_time_get`: `timeBase` is the static variable, `timeVal` the reading
`gettimeofday` returned; the result is converted to `enet_uint32`. -/
def enet_time_get (timeBase : Nat) (timeVal : timeval) : Nat :=
  to_uint32 (timeVal.millis - (timeBase : Int))

/-- Modelled from the spec: the enumeration `ENetAddressFamily` ("enumerated
{None, IPv4, IPv6}") declared in the header `enet2/enet.h`. -/
inductive ENetAddressFamily where
  | ENET_NO_ADDRESS_FAMILY
  | ENET_IPV4
  | ENET_IPV6
  deriving DecidableEq, Repr

open ENetAddressFamily

/-- Modelled from the spec: `ENetHostAddress` of `enet2/enet.h`, the 128-bit
host as its 16 bytes in memory order (`addr[0]` .. `addr[15]`). -/
structure ENetHostAddress where
  addr : List Nat
  deriving DecidableEq, Repr

/-- Modelled from the spec: `ENetAddress` of `enet2/enet.h`: 128-bit host,
32-bit scope id, 16-bit port in host byte order. -/
structure ENetAddress where
  host : ENetHostAddress
  scopeID : Nat
  port : Nat
  deriving DecidableEq, Repr

/-- A well-formed address value: 16 host bytes, a 32-bit scope id and a
16-bit port. -/
def ENetAddress.wf (a : ENetAddress) : Prop :=
  a.host.addr.length = 16 ∧ a.scopeID < 4294967296 ∧ a.port < 65536

instance (a : ENetAddress) : Decidable a.wf := by
  unfold ENetAddress.wf; infer_instance

/-- Modelled from the spec: the wildcard constant `ENET_HOST_ANY` of
`enet2/enet.h` ("any address"), sixteen zero bytes. -/
def ENET_HOST_ANY : ENetHostAddress := ⟨List.replicate 16 0⟩

/-- Modelled from the spec: the twelve leading bytes `::ffff:0:0/96` that mark
an IPv4 address "mapped into the same 128-bit space" (`enet2/enet.h`). -/
def ENET_IPV4MAPPED_PREFIX_BYTES : List Nat := List.replicate 10 0 ++ [255, 255]

/-- Modelled from the spec: `enet_address_map4`, absent from the sources: the
four bytes of a native IPv4 address placed behind the IPv4-mapped prefix. -/
def enet_address_map4 (s_addr : List Nat) : ENetHostAddress :=
  ⟨ENET_IPV4MAPPED_PREFIX_BYTES ++ s_addr⟩

/-- Modelled from the spec: `enet_get_address_family`, absent from the
sources: the family "derived from a NeutralAddress's host value", IPv4 when
the host is an IPv4-mapped value and IPv6 otherwise. -/
def enet_get_address_family (address : ENetAddress) : ENetAddressFamily :=
  if address.host.addr.take 12 = ENET_IPV4MAPPED_PREFIX_BYTES then ENET_IPV4 else ENET_IPV6

/-- Exchange of the two bytes of a 16-bit value. -/
def swap16 (x : Nat) : Nat := (x % 256) * 256 + (x / 256) % 256

/-- Modelled from the spec: the macro `ENET_HOST_TO_NET_16` of the platform
header ("host-to-network-converted port", `htons`): the identity on a
big-endian host, a byte swap on a little-endian one. -/
def ENET_HOST_TO_NET_16 (bigEndian : Bool) (value : Nat) : Nat :=
  if bigEndian then value % 65536 else swap16 value

/-- Modelled from the spec: the macro `ENET_NET_TO_HOST_16` of the platform
header ("port converted from network to host order", `ntohs`). -/
def ENET_NET_TO_HOST_16 (bigEndian : Bool) (value : Nat) : Nat :=
  if bigEndian then value % 65536 else swap16 value

/-- The tag `AF_UNSPEC` (zeroed `sa_family`). -/
def AF_UNSPEC : Nat := 0
/-- The tag `AF_INET`. -/
def AF_INET : Nat := 2
/-- The tag `AF_INET6`. -/
def AF_INET6 : Nat := 10

/-- Members of `struct sockaddr_in` behind the family tag: port in network
byte order and the four address bytes. -/
structure sockaddr_in where
  sin_port : Nat
  sin_addr : List Nat
  deriving DecidableEq, Repr

/-- Members of `struct sockaddr_in6` behind the family tag. -/
structure sockaddr_in6 where
  sin6_port : Nat
  sin6_flowinfo : Nat
  sin6_addr : ENetHostAddress
  sin6_scope_id : Nat
  deriving DecidableEq, Repr

/-- A native socket address (`struct sockaddr_storage`) as a union tagged by
`sa_family`: `in4` carries the tag `AF_INET`, `in6` the tag `AF_INET6`, and
`other tag` is storage whose tag is neither (the code reads nothing else of
it); `other AF_UNSPEC` is zeroed storage. -/
inductive sockaddr where
  | in4 (sin : sockaddr_in)
  | in6 (sin6 : sockaddr_in6)
  | other (tag : Nat)
  deriving DecidableEq, Repr

/-- The field `sa_family`. -/
def sockaddr.sa_family : sockaddr → Nat
  | .in4 _ => AF_INET
  | .in6 _ => AF_INET6
  | .other tag => tag

/-- `sizeof (struct sockaddr_in)`. -/
def sizeof_sockaddr_in : Nat := 16
/-- `sizeof (struct sockaddr_in6)`. -/
def sizeof_sockaddr_in6 : Nat := 28

/-- `enet_af`. -/
def enet_af (family : ENetAddressFamily) : Nat :=
  if family = ENET_IPV4 then AF_INET
  else if family = ENET_IPV6 then AF_INET6
  else 0

/-- `enet_sa_size`. -/
def enet_sa_size (family : ENetAddressFamily) : Nat :=
  if family = ENET_IPV4 then sizeof_sockaddr_in
  else if family = ENET_IPV6 then sizeof_sockaddr_in6
  else 0

/-- The all-zero `ENetAddress` left by `memset (address, 0, sizeof (ENetAddress))`. -/
def ENetAddress.zero : ENetAddress := ⟨⟨List.replicate 16 0⟩, 0, 0⟩

/-- `enet_address_set_address` (decode): the returned family and the content
of `*address` afterwards. The output is cleared first, so it does not depend
on what `*address` held before. -/
def enet_address_set_address (bigEndian : Bool) (sin : sockaddr) :
    ENetAddressFamily × ENetAddress :=
  let address := ENetAddress.zero
  match sin with
  | .in4 s =>
      (ENET_IPV4,
        { address with
          host := enet_address_map4 s.sin_addr
          port := ENET_NET_TO_HOST_16 bigEndian s.sin_port })
  | .in6 s =>
      (ENET_IPV6,
        { address with
          host := s.sin6_addr
          scopeID := s.sin6_scope_id
          port := ENET_NET_TO_HOST_16 bigEndian s.sin6_port })
  | .other _ => (ENET_NO_ADDRESS_FAMILY, address)

/-- The effect of `memset (sin, 0, size)` on the storage: nothing for size 0,
otherwise the family tag (and the members behind it) become zero. -/
def sockaddr.memset_zero (sin : sockaddr) (size : Nat) : sockaddr :=
  if size = 0 then sin else .other AF_UNSPEC

/-- `enet_address_set_sin` (encode): the return value and the content of
`*sin` afterwards; the first argument is the content of `*sin` before. -/
def enet_address_set_sin (bigEndian : Bool) (sin : sockaddr) (address : ENetAddress)
    (family : ENetAddressFamily) : Int × sockaddr :=
  let sin := sin.memset_zero (enet_sa_size family)
  if family = ENET_IPV4 ∧
      (enet_get_address_family address = ENET_IPV4 ∨ address.host = ENET_HOST_ANY) then
    (0, .in4
      { sin_addr := (address.host.addr.drop 12).take 4
        sin_port := ENET_HOST_TO_NET_16 bigEndian address.port })
  else if family = ENET_IPV6 then
    (0, .in6
      { sin6_flowinfo := 0
        sin6_addr := address.host
        sin6_scope_id := address.scopeID
        sin6_port := ENET_HOST_TO_NET_16 bigEndian address.port })
  else
    (-1, sin)

/-! ## Host resolution -/

/-- One node of the list `getaddrinfo` returns; the code reads `ai_addr` (and
follows `ai_next`, which is the tail of the Lean list). -/
structure addrinfo where
  ai_addr : sockaddr
  deriving DecidableEq, Repr

/-- The `for (res = result; res != NULL; res = res -> ai_next)` loop of
`enet_address_set_host`: the content of `*address` when the loop ends and
whether it ended with `res == NULL`. -/
def enet_address_set_host_loop (bigEndian : Bool) :
    ENetAddress → List addrinfo → ENetAddress × Bool
  | address, [] => (address, true)
  | _, res :: ai_next =>
      let r := enet_address_set_address bigEndian res.ai_addr
      if r.1 ≠ ENET_NO_ADDRESS_FAMILY then (r.2, false)
      else enet_address_set_host_loop bigEndian r.2 ai_next

/-- `enet_address_set_host`: `gai` is the return value of `getaddrinfo`
(nonzero on failure) and `result` the candidate list it produced; the value
is the return code and the content of `*address` afterwards. -/
def enet_address_set_host (bigEndian : Bool) (address : ENetAddress) (gai : Int)
    (result : List addrinfo) : Int × ENetAddress :=
  let port := address.port
  if gai ≠ 0 then (-1, address)
  else
    let loop := enet_address_set_host_loop bigEndian address result
    let address := { loop.1 with port := port }
    if loop.2 then (-1, address) else (0, address)

/-- Whether a native address carries one of the two family tags the library
recognises, `AF_INET` (`in4`) or `AF_INET6` (`in6`). -/
def sockaddr.recognised : sockaddr → Bool
  | .in4 _ => true
  | .in6 _ => true
  | .other _ => false

/-- The host a native address stands for in the neutral representation: the
IPv4-mapped form of an `AF_INET` address, the 16 bytes of an `AF_INET6`
address (and the cleared host for any other tag). -/
def sockaddr.neutral_host : sockaddr → ENetHostAddress
  | .in4 s => enet_address_map4 s.sin_addr
  | .in6 s => s.sin6_addr
  | .other _ => ⟨List.replicate 16 0⟩

/-- The scope id a native address stands for: that of an `AF_INET6` address,
0 otherwise ("scopeID copied only for IPv6"). -/
def sockaddr.neutral_scope : sockaddr → Nat
  | .in4 _ => 0
  | .in6 s => s.sin6_scope_id
  | .other _ => 0

/-- The first candidate, in resolver order, whose native address carries a
recognised family tag (the specification's description of the accepted
candidate). -/
def first_recognised (result : List addrinfo) : Option addrinfo :=
  result.find? fun c => c.ai_addr.recognised

/-! ## Sockets -/

/-- Modelled from the spec: the sentinel `ENET_SOCKET_NULL` of the platform
header ("a reserved sentinel value ... distinct from every valid handle
value"). A socket handle (`ENetSocket`) is an `int` descriptor, `Int` here;
descriptors are non-negative, the sentinel is `-1`. -/
def ENET_SOCKET_NULL : Int := -1

/-- `enet_socket_bind`: `bind` is the system call, `sin` the content of the
local `struct sockaddr_storage` before it is written; `address` is `none` for
a `NULL` pointer. -/
def enet_socket_bind (bigEndian : Bool) (bind : Int → sockaddr → Nat → Int)
    (sin : sockaddr) (socket : Int) (address : Option ENetAddress)
    (family : ENetAddressFamily) : Int :=
  let sin :=
    match address with
    | some address => (enet_address_set_sin bigEndian sin address family).2
    | none =>
        let address_ : ENetAddress := { host := ENET_HOST_ANY, scopeID := 0, port := 0 }
        (enet_address_set_sin bigEndian sin address_ family).2
  bind socket sin (enet_sa_size family)

/-- `ENetBuffer`: a length and the bytes it points at. -/
structure ENetBuffer where
  dataLength : Nat
  data : List Nat
  deriving DecidableEq, Repr

/-- The members of `struct msghdr` the code sets or reads. -/
structure msghdr where
  msg_name : Option sockaddr
  msg_namelen : Nat
  msg_iov : List ENetBuffer
  msg_iovlen : Nat
  msg_flags : Nat
  deriving DecidableEq, Repr

/-- The header after `memset (& msgHdr, 0, sizeof (struct msghdr))`. -/
def msghdr.zero : msghdr :=
  { msg_name := none, msg_namelen := 0, msg_iov := [], msg_iovlen := 0, msg_flags := 0 }

/-- The flag `MSG_NOSIGNAL`. -/
def MSG_NOSIGNAL : Nat := 0x4000
/-- The flag `MSG_TRUNC`. -/
def MSG_TRUNC : Nat := 0x20
/-- The error number `EWOULDBLOCK`. -/
def EWOULDBLOCK : Nat := 11

/-- Outcome of `sendmsg`: the value stored in `sentLength` and `errno`. -/
structure sendmsg_result where
  ret : Int
  errno : Nat
  deriving DecidableEq, Repr

/-- Outcome of `recvmsg`: the value stored in `recvLength`, `errno`, the
`msg_flags` the kernel wrote and the source address it stored through
`msg_name`. -/
structure recvmsg_result where
  ret : Int
  errno : Nat
  msg_flags : Nat
  name : sockaddr
  deriving DecidableEq, Repr

/-- The `msghdr` that `enet_socket_send` hands to `sendmsg`. -/
def enet_socket_send_msghdr (bigEndian : Bool) (sin : sockaddr)
    (address : Option ENetAddress) (buffers : List ENetBuffer)
    (family : ENetAddressFamily) : msghdr :=
  let msgHdr := msghdr.zero
  let msgHdr :=
    match address with
    | some address =>
        { msgHdr with
          msg_name := some (enet_address_set_sin bigEndian sin address family).2
          msg_namelen := enet_sa_size family }
    | none => msgHdr
  { msgHdr with msg_iov := buffers, msg_iovlen := buffers.length }

/-- `enet_socket_send`: `sendmsg` is the system call, `sin` the content of the
local native address before it is written. -/
def enet_socket_send (bigEndian : Bool)
    (sendmsg : Int → msghdr → Nat → sendmsg_result) (sin : sockaddr)
    (socket : Int) (address : Option ENetAddress) (buffers : List ENetBuffer)
    (family : ENetAddressFamily) : Int :=
  let msgHdr := enet_socket_send_msghdr bigEndian sin address buffers family
  let r := sendmsg socket msgHdr MSG_NOSIGNAL
  let sentLength := r.ret
  if sentLength = -1 then
    if r.errno = EWOULDBLOCK then 0 else -1
  else sentLength

/-- The `msghdr` that `enet_socket_receive` hands to `recvmsg`. -/
def enet_socket_receive_msghdr (sin : sockaddr) (address : Option ENetAddress)
    (buffers : List ENetBuffer) (family : ENetAddressFamily) : msghdr :=
  let msgHdr := msghdr.zero
  let msgHdr :=
    match address with
    | some _ => { msgHdr with msg_name := some sin, msg_namelen := enet_sa_size family }
    | none => msgHdr
  { msgHdr with msg_iov := buffers, msg_iovlen := buffers.length }

/-- `enet_socket_receive`: `HAS_MSGHDR_FLAGS` is the compile-time switch,
`recvmsg` the system call; the value is the return code and the content of
`*address` afterwards (`none` for a `NULL` pointer). -/
def enet_socket_receive (bigEndian : Bool) (HAS_MSGHDR_FLAGS : Bool)
    (recvmsg : Int → msghdr → Nat → recvmsg_result) (sin : sockaddr)
    (socket : Int) (address : Option ENetAddress) (buffers : List ENetBuffer)
    (family : ENetAddressFamily) : Int × Option ENetAddress :=
  let msgHdr := enet_socket_receive_msghdr sin address buffers family
  let r := recvmsg socket msgHdr MSG_NOSIGNAL
  let recvLength := r.ret
  if recvLength = -1 then
    if r.errno = EWOULDBLOCK then (0, address) else (-1, address)
  else if HAS_MSGHDR_FLAGS ∧ r.msg_flags &&& MSG_TRUNC ≠ 0 then (-1, address)
  else
    match address with
    | some _ => (recvLength, some (enet_address_set_address bigEndian r.name).2)
    | none => (recvLength, none)

/-- Total capacity of the supplied buffers. -/
def buffers_capacity (buffers : List ENetBuffer) : Nat :=
  (buffers.map ENetBuffer.dataLength).sum

/-- A `recvmsg` that has one datagram of `messageLength` bytes from `source`
queued: it stores what fits, returns the stored length and raises `MSG_TRUNC`
in `msg_flags` when the datagram was longer than the capacity. -/
def recvmsg_datagram (messageLength : Nat) (source : sockaddr) :
    Int → msghdr → Nat → recvmsg_result :=
  fun _ msgHdr _ =>
    let capacity := buffers_capacity (msgHdr.msg_iov.take msgHdr.msg_iovlen)
    { ret := min messageLength capacity
      errno := 0
      msg_flags := if capacity < messageLength then MSG_TRUNC else 0
      name := source }

/-! ## Readiness wait -/

/-- Modelled from the spec: the `WaitInterest` bit `None` of `enet2/enet.h`. -/
def ENET_SOCKET_WAIT_NONE : Nat := 0
/-- Modelled from the spec: the `WaitInterest` bit `Send` (`1 << 0`). -/
def ENET_SOCKET_WAIT_SEND : Nat := 1
/-- Modelled from the spec: the `WaitInterest` bit `Receive` (`1 << 1`). -/
def ENET_SOCKET_WAIT_RECEIVE : Nat := 2

/-- The event bit `POLLIN`. -/
def POLLIN : Nat := 0x1
/-- The event bit `POLLOUT`. -/
def POLLOUT : Nat := 0x4
/-- The event bit `POLLERR`. -/
def POLLERR : Nat := 0x8
/-- The event bit `POLLHUP`. -/
def POLLHUP : Nat := 0x10
/-- The event bit `POLLNVAL`. -/
def POLLNVAL : Nat := 0x20
/-- The capacity `FD_SETSIZE` of an `fd_set`. -/
def FD_SETSIZE : Int := 1024

/-- What the kernel reports when a wait returns: whether the call itself
fails (for a reason other than a bad descriptor), and for every descriptor
whether it is open, readable, writable, and whether an error or a hang-up
condition is pending on it. -/
structure Readiness where
  failed : Bool
  opened : Int → Bool
  readable : Int → Bool
  writable : Int → Bool
  error : Int → Bool
  hangup : Int → Bool

/-- The kernel as a waiting call sees it: the report it gives at the end of a
wait of at most the given number of microseconds (`none`: no limit). -/
abbrev Kernel := Option Nat → Readiness

/-- The entry `struct pollfd`. -/
structure pollfd where
  fd : Int
  events : Nat
  revents : Nat
  deriving DecidableEq, Repr

/-- The `revents` the kernel stores for one entry: nothing for a negative
descriptor, `POLLNVAL` for one that is not open; otherwise the requested
events that are ready, and `POLLERR` and `POLLHUP` whether requested or not. -/
def poll_revents (os : Readiness) (p : pollfd) : Nat :=
  if p.fd < 0 then 0
  else if os.opened p.fd = false then POLLNVAL
  else
    (if p.events &&& POLLIN ≠ 0 ∧ os.readable p.fd then POLLIN else 0) |||
    (if p.events &&& POLLOUT ≠ 0 ∧ os.writable p.fd then POLLOUT else 0) |||
    (if os.error p.fd then POLLERR else 0) |||
    (if os.hangup p.fd then POLLHUP else 0)

/-- What `poll` returns and stores on a given report: `-1` when the call
fails, otherwise the number of the first `nfds` entries with a nonzero
`revents` (0 is a timeout) and the array with those `revents` stored. -/
def poll_report (os : Readiness) (fds : List pollfd) (nfds : Nat) : Int × List pollfd :=
  if os.failed then (-1, fds)
  else
    let polled := (fds.take nfds).map fun p => { p with revents := poll_revents os p }
    (((polled.filter fun p => p.revents ≠ 0).length : Int), polled ++ fds.drop nfds)

/-- How long `poll` may wait for an `int` timeout in milliseconds: without
limit when it is negative. -/
def poll_duration (timeout : Int) : Option Nat :=
  if timeout < 0 then none else some (timeout.toNat * 1000)

/-- The system call `poll (fds, nfds, timeout)`. -/
def poll (kernel : Kernel) (fds : List pollfd) (nfds : Nat) (timeout : Int) :
    Int × List pollfd :=
  poll_report (kernel (poll_duration timeout)) fds nfds

/-- A descriptor set `fd_set`: the membership test of its `FD_SETSIZE` bits
(descriptors `0 .. FD_SETSIZE-1`). -/
abbrev fd_set := Int → Bool

/-- `FD_ZERO`. -/
def FD_ZERO : fd_set := fun _ => false

/-- `FD_SET`: defined for a descriptor within the set's capacity only (`none`
stands for the undefined behaviour of the macro outside it). -/
def FD_SET (fd : Int) (set : fd_set) : Option fd_set :=
  if 0 ≤ fd ∧ fd < FD_SETSIZE then some (fun x => if x = fd then true else set x) else none

/-- `FD_ISSET`: defined for a descriptor within the set's capacity only. -/
def FD_ISSET (fd : Int) (set : fd_set) : Option Bool :=
  if 0 ≤ fd ∧ fd < FD_SETSIZE then some (set fd) else none

/-- What `select` counts as ready for reading: data to read, or a pending
error or hang-up (a read would not block). -/
def select_readable (os : Readiness) (fd : Int) : Bool :=
  os.readable fd || os.error fd || os.hangup fd

/-- What `select` counts as ready for writing: room to write, or a pending
error (a write would not block). -/
def select_writable (os : Readiness) (fd : Int) : Bool :=
  os.writable fd || os.error fd

/-- The set `select` leaves behind: of the descriptors `0 .. nfds-1` only
those that are ready stay in; the others are not examined. -/
def select_set (ready : Int → Bool) (nfds : Int) (set : fd_set) : fd_set :=
  fun fd => if 0 ≤ fd ∧ fd < nfds then set fd && ready fd else set fd

/-- Number of descriptors `0 .. nfds-1` in a set. -/
def fd_count (nfds : Int) (set : fd_set) : Nat :=
  ((List.range nfds.toNat).filter fun (i : Nat) => set (Int.ofNat i)).length

/-- Whether one of the descriptors `0 .. nfds-1` of the two sets is not open
(`select` then fails with `EBADF`). -/
def select_bad (os : Readiness) (nfds : Int) (readSet writeSet : fd_set) : Bool :=
  (List.range nfds.toNat).any fun (i : Nat) =>
    (readSet (Int.ofNat i) || writeSet (Int.ofNat i)) && !os.opened (Int.ofNat i)

/-- What `select` returns and stores on a given report: `-1` when the call
fails or a descriptor in the sets is not open, otherwise the number of ready
descriptors in both sets (0 is a timeout) and the two sets reduced to the
ready descriptors. -/
def select_report (os : Readiness) (nfds : Int) (readSet writeSet : fd_set) :
    Int × fd_set × fd_set :=
  if os.failed ∨ select_bad os nfds readSet writeSet then (-1, readSet, writeSet)
  else
    let readSet := select_set (select_readable os) nfds readSet
    let writeSet := select_set (select_writable os) nfds writeSet
    (((fd_count nfds readSet + fd_count nfds writeSet : Nat) : Int), readSet, writeSet)

/-- How long `select` may wait for a given `struct timeval`. -/
def select_duration (timeVal : timeval) : Option Nat :=
  some (timeVal.tv_sec.toNat * 1000000 + timeVal.tv_usec.toNat)

/-- The system call `select (nfds, readfds, writefds, NULL, timeout)`. -/
def select (kernel : Kernel) (nfds : Int) (readSet writeSet : fd_set) (timeVal : timeval) :
    Int × fd_set × fd_set :=
  select_report (kernel (select_duration timeVal)) nfds readSet writeSet

/-- Conversion of an `enet_uint32` to `int` (the `timeout` argument of `poll`). -/
def to_int (x : Nat) : Int :=
  if x % 4294967296 < 2147483648 then ((x % 4294967296 : Nat) : Int)
  else ((x % 4294967296 : Nat) : Int) - 4294967296

/-- `enet_socket_wait`, the `HAS_POLL` branch up to the call of `poll`: the
array `pollSocket` (with `revents0` the content of the uninitialised
`pollSocket[0].revents`) and the entry count handed to `poll`. -/
def enet_socket_wait_pollfds (revents0 : Nat) (socket4 socket6 : Int)
    (condition : Nat) : List pollfd × Nat :=
  let fd0 := socket4
  let fd1 := socket6
  let events0 := 0
  let events1 := 0
  let revents1 := 0
  let swapped := decide (fd0 = ENET_SOCKET_NULL)
  let fd0 := if swapped then fd1 else fd0
  let fd1 := if swapped then ENET_SOCKET_NULL else fd1
  let events0 := if condition &&& ENET_SOCKET_WAIT_SEND ≠ 0 then events0 ||| POLLOUT else events0
  let events1 := if condition &&& ENET_SOCKET_WAIT_SEND ≠ 0 then events1 ||| POLLOUT else events1
  let events0 := if condition &&& ENET_SOCKET_WAIT_RECEIVE ≠ 0 then events0 ||| POLLIN else events0
  let events1 := if condition &&& ENET_SOCKET_WAIT_RECEIVE ≠ 0 then events1 ||| POLLIN else events1
  ([{ fd := fd0, events := events0, revents := revents0 },
    { fd := fd1, events := events1, revents := revents1 }],
   if fd1 ≠ ENET_SOCKET_NULL then 2 else 1)

/-- `enet_socket_wait`, the `HAS_POLL` branch after the call of `poll`:
`revents0` and `revents1` are `pollSocket[0].revents` and
`pollSocket[1].revents` as the call left them, `condition` the content of
`*condition` before; the value is the return code and `*condition` afterwards. -/
def enet_socket_wait_poll_result (pollCount : Int) (revents0 revents1 : Nat)
    (condition : Nat) : Int × Nat :=
  if pollCount < 0 then (-1, condition)
  else
    let condition := ENET_SOCKET_WAIT_NONE
    if pollCount = 0 then (0, condition)
    else
      let condition :=
        if (revents0 ||| revents1) &&& POLLOUT ≠ 0 then condition ||| ENET_SOCKET_WAIT_SEND
        else condition
      let condition :=
        if (revents0 ||| revents1) &&& POLLIN ≠ 0 then condition ||| ENET_SOCKET_WAIT_RECEIVE
        else condition
      (0, condition)

/-- `enet_socket_wait`, the `HAS_POLL` branch: the array is prepared, `poll`
is called on it with the timeout converted to `int`, and its outcome is
turned into the return code and the new `*condition`. -/
def enet_socket_wait_poll (kernel : Kernel) (revents0 : Nat) (socket4 socket6 : Int)
    (condition : Nat) (timeout : Nat) : Int × Nat :=
  let pollSocket := enet_socket_wait_pollfds revents0 socket4 socket6 condition
  let r := poll kernel pollSocket.1 pollSocket.2 (to_int timeout)
  enet_socket_wait_poll_result r.1 ((r.2.map pollfd.revents).getD 0 0)
    ((r.2.map pollfd.revents).getD 1 0) condition

/-- `enet_socket_wait`, the `select` branch up to the call of `select`: the
sets `readSet` and `writeSet` and `maxSocket`; `none` when `FD_SET` is applied
to a descriptor outside the capacity of the sets. -/
def enet_socket_wait_fdsets (socket4 socket6 : Int) (condition : Nat) :
    Option (fd_set × fd_set × Int) := do
  let readSet := FD_ZERO
  let writeSet := FD_ZERO
  let send := decide (condition &&& ENET_SOCKET_WAIT_SEND ≠ 0)
  let writeSet ←
    if send ∧ socket4 ≠ ENET_SOCKET_NULL then FD_SET socket4 writeSet else some writeSet
  let writeSet ←
    if send ∧ socket6 ≠ ENET_SOCKET_NULL then FD_SET socket6 writeSet else some writeSet
  let receive := decide (condition &&& ENET_SOCKET_WAIT_RECEIVE ≠ 0)
  let readSet ←
    if receive ∧ socket4 ≠ ENET_SOCKET_NULL then FD_SET socket4 readSet else some readSet
  let readSet ←
    if receive ∧ socket6 ≠ ENET_SOCKET_NULL then FD_SET socket6 readSet else some readSet
  let maxSocket : Int := 0
  let maxSocket := if socket4 ≠ ENET_SOCKET_NULL then socket4 else maxSocket
  let maxSocket := if socket6 ≠ ENET_SOCKET_NULL ∧ socket6 > maxSocket then socket6 else maxSocket
  some (readSet, writeSet, maxSocket)

/-- The test `(socket4 != ENET_SOCKET_NULL && FD_ISSET (socket4, & set)) ||
(socket6 != ENET_SOCKET_NULL && FD_ISSET (socket6, & set))`, evaluated from
left to right as C does. -/
def enet_socket_wait_isset (socket4 socket6 : Int) (set : fd_set) : Option Bool := do
  let first ← if socket4 ≠ ENET_SOCKET_NULL then FD_ISSET socket4 set else some false
  if first then some true
  else if socket6 ≠ ENET_SOCKET_NULL then FD_ISSET socket6 set else some false

/-- `enet_socket_wait`, the `select` branch after the call of `select`:
`readSet` and `writeSet` are the sets as the call left them. -/
def enet_socket_wait_select_result (selectCount : Int) (readSet writeSet : fd_set)
    (socket4 socket6 : Int) (condition : Nat) : Option (Int × Nat) :=
  if selectCount < 0 then some (-1, condition)
  else
    let condition := ENET_SOCKET_WAIT_NONE
    if selectCount = 0 then some (0, condition)
    else do
      let send ← enet_socket_wait_isset socket4 socket6 writeSet
      let condition := if send then condition ||| ENET_SOCKET_WAIT_SEND else condition
      let receive ← enet_socket_wait_isset socket4 socket6 readSet
      let condition := if receive then condition ||| ENET_SOCKET_WAIT_RECEIVE else condition
      some (0, condition)

/-- `enet_socket_wait`, the `select` branch (no `HAS_POLL`): the sets are
prepared, `select` is called with `maxSocket + 1` and the timeout split into
seconds and microseconds, and its outcome is turned into the return code and
the new `*condition`; `none` when the branch runs into undefined behaviour. -/
def enet_socket_wait_select (kernel : Kernel) (socket4 socket6 : Int)
    (condition : Nat) (timeout : Nat) : Option (Int × Nat) := do
  let timeVal : timeval :=
    { tv_sec := ((timeout / 1000 : Nat) : Int), tv_usec := (((timeout % 1000) * 1000 : Nat) : Int) }
  let sets ← enet_socket_wait_fdsets socket4 socket6 condition
  let r := select kernel (sets.2.2 + 1) sets.1 sets.2.1 timeVal
  enet_socket_wait_select_result r.1 r.2.1 r.2.2 socket4 socket6 condition

/-- A handle the two branches can be compared on: the sentinel, or an open
descriptor below `FD_SETSIZE` with no error or hang-up condition pending. -/
def socket_quiet (os : Readiness) (socket : Int) : Prop :=
  socket = ENET_SOCKET_NULL ∨
    (0 ≤ socket ∧ socket < FD_SETSIZE ∧ os.opened socket = true ∧
      os.error socket = false ∧ os.hangup socket = false)

instance (os : Readiness) (socket : Int) : Decidable (socket_quiet os socket) := by
  unfold socket_quiet; infer_instance

/-- The result of the wait in the specification's words: a failure leaves
`*condition` alone and returns -1; otherwise the return code is 0 and
`*condition` holds the requested interests that are ready on a socket that is
not the sentinel, merged across both sockets (`ENET_SOCKET_WAIT_NONE` when
none is: the timeout). -/
def wait_result (os : Readiness) (socket4 socket6 : Int) (condition : Nat) :
    Int × Nat :=
  if os.failed then (-1, condition)
  else
    (0,
      (if condition &&& ENET_SOCKET_WAIT_SEND ≠ 0 ∧
          ((socket4 ≠ ENET_SOCKET_NULL ∧ os.writable socket4) ∨
            (socket6 ≠ ENET_SOCKET_NULL ∧ os.writable socket6))
        then ENET_SOCKET_WAIT_SEND else ENET_SOCKET_WAIT_NONE) |||
      (if condition &&& ENET_SOCKET_WAIT_RECEIVE ≠ 0 ∧
          ((socket4 ≠ ENET_SOCKET_NULL ∧ os.readable socket4) ∨
            (socket6 ≠ ENET_SOCKET_NULL ∧ os.readable socket6))
        then ENET_SOCKET_WAIT_RECEIVE else ENET_SOCKET_WAIT_NONE))

/-- A sample report: descriptors 3 and 4 open, 3 readable, 4 writable, nothing
pending. -/
def Readiness.sample : Readiness :=
  { failed := false
    opened := fun fd => decide (fd = 3 ∨ fd = 4)
    readable := fun fd => decide (fd = 3)
    writable := fun fd => decide (fd = 4)
    error := fun _ => false
    hangup := fun _ => false }

/-- A report with an error pending on the open descriptor 3, which is neither
readable nor writable. -/
def Readiness.pending_error : Readiness :=
  { failed := false
    opened := fun fd => decide (fd = 3)
    readable := fun _ => false
    writable := fun _ => false
    error := fun fd => decide (fd = 3)
    hangup := fun _ => false }

/-- A report with a hang-up pending on the open descriptor 3, which is neither
readable nor writable. -/
def Readiness.pending_hangup : Readiness :=
  { failed := false
    opened := fun fd => decide (fd = 3)
    readable := fun _ => false
    writable := fun _ => false
    error := fun _ => false
    hangup := fun fd => decide (fd = 3) }

/-- A report in which descriptor 3 has been closed. -/
def Readiness.closed : Readiness :=
  { failed := false
    opened := fun _ => false
    readable := fun _ => false
    writable := fun _ => false
    error := fun _ => false
    hangup := fun _ => false }

/-- A report with the open descriptor 2000 readable. -/
def Readiness.large : Readiness :=
  { failed := false
    opened := fun fd => decide (fd = 2000)
    readable := fun fd => decide (fd = 2000)
    writable := fun _ => false
    error := fun _ => false
    hangup := fun _ => false }

/-- A kernel on which descriptor 3 becomes readable only after more than
fifty days: a bounded wait times out, an unbounded one reports it. -/
def Kernel.slow : Kernel
  | none =>
      { failed := false
        opened := fun fd => decide (fd = 3)
        readable := fun fd => decide (fd = 3)
        writable := fun _ => false
        error := fun _ => false
        hangup := fun _ => false }
  | some _ =>
      { failed := false
        opened := fun fd => decide (fd = 3)
        readable := fun _ => false
        writable := fun _ => false
        error := fun _ => false
        hangup := fun _ => false }

end ENet


/-! # Properties -/

namespace ENet
open ENetAddressFamily

/-! ## Clock -/

theorem millis_eq (tv : timeval) (h : tv.normalised) :
    tv.millis = tv.tv_sec * 1000 + tv.tv_usec / 1000 := by
  unfold timeval.millis
  rw [Int.tdiv_eq_ediv h.2.1 (by decide)]

theorem millis_mono (a b : timeval) (ha : a.normalised) (hb : b.normalised)
    (hle : timeval.le a b) : a.millis ≤ b.millis := by
  rw [millis_eq a ha, millis_eq b hb]
  unfold timeval.normalised at ha hb
  unfold timeval.le at hle
  omega

/-- C9, as stated, fails: with time base 0, the reading 1717986918.399000 s
gives 4294967295 and the later reading 1717986918.400000 s gives 0: the 32-bit
millisecond counter wraps, so the second result is smaller than the first. -/
theorem enet_time_get_wraps_around :
    timeval.normalised ⟨1717986918, 399000⟩ ∧ timeval.normalised ⟨1717986918, 400000⟩ ∧
    timeval.le ⟨1717986918, 399000⟩ ⟨1717986918, 400000⟩ ∧
    enet_time_get 0 ⟨1717986918, 399000⟩ = 4294967295 ∧
    enet_time_get 0 ⟨1717986918, 400000⟩ = 0 ∧
    ¬ (enet_time_get 0 ⟨1717986918, 399000⟩ ≤ enet_time_get 0 ⟨1717986918, 400000⟩) := by
  decide

/-- C9, amended: for two readings in chronological order and any time base,
if the first result plus the elapsed wall-clock milliseconds stays below 2^32
(the 32-bit counter does not wrap in between), then the second result of
`enet_time_get` is the first plus the elapsed milliseconds, hence not smaller. -/
theorem enet_time_get_monotone_without_wrap (timeBase : Nat) (tv1 tv2 : timeval)
    (h1 : tv1.normalised) (h2 : tv2.normalised) (hle : timeval.le tv1 tv2)
    (hno : (enet_time_get timeBase tv1 : Int) + (tv2.millis - tv1.millis) < 4294967296) :
    enet_time_get timeBase tv1 ≤ enet_time_get timeBase tv2 ∧
    (enet_time_get timeBase tv2 : Int) =
      enet_time_get timeBase tv1 + (tv2.millis - tv1.millis) := by
  have hm := millis_mono tv1 tv2 h1 h2 hle
  unfold enet_time_get to_uint32 at *
  omega

theorem enet_time_get_monotone_without_wrap_witness :
    enet_time_get 5 ⟨1717986919, 0⟩ ≤ enet_time_get 5 ⟨1717986920, 250000⟩ ∧
    (enet_time_get 5 ⟨1717986920, 250000⟩ : Int) =
      enet_time_get 5 ⟨1717986919, 0⟩ +
        (timeval.millis ⟨1717986920, 250000⟩ - timeval.millis ⟨1717986919, 0⟩) :=
  enet_time_get_monotone_without_wrap 5 ⟨1717986919, 0⟩ ⟨1717986920, 250000⟩
    (by decide) (by decide) (by decide) (by decide)

theorem swap16_swap16 (x : Nat) (h : x < 65536) : swap16 (swap16 x) = x := by
  unfold swap16
  have hhi : x / 256 % 256 = x / 256 := Nat.mod_eq_of_lt (by omega)
  have hlo : x % 256 < 256 := Nat.mod_lt _ (by decide)
  have h1 : (x % 256 * 256 + x / 256) % 256 = x / 256 := by omega
  have h2 : (x % 256 * 256 + x / 256) / 256 = x % 256 := by omega
  rw [hhi, h1, h2, Nat.mod_eq_of_lt hlo]
  omega

theorem net_to_host_to_net (bigEndian : Bool) (port : Nat) (h : port < 65536) :
    ENET_NET_TO_HOST_16 bigEndian (ENET_HOST_TO_NET_16 bigEndian port) = port := by
  unfold ENET_NET_TO_HOST_16 ENET_HOST_TO_NET_16
  cases bigEndian
  · simpa using swap16_swap16 port h
  · simp only [if_true]
    omega

theorem map4_of_mapped (host : ENetHostAddress) (hlen : host.addr.length = 16)
    (hpre : host.addr.take 12 = ENET_IPV4MAPPED_PREFIX_BYTES) :
    enet_address_map4 ((host.addr.drop 12).take 4) = host := by
  have h4 : (host.addr.drop 12).take 4 = host.addr.drop 12 := by
    apply List.take_of_length_le
    simp [hlen]
  unfold enet_address_map4
  rw [h4, ← hpre, List.take_append_drop]

/-- C1: for every well-formed address `a` (16 host bytes, 32-bit scope id,
port 0..65535), in either byte order and whatever the native buffer held,
encoding `a` with its own family returns 0, and decoding the native address
returns that family with the same host and the same port; for an IPv6 address
the decoded address is `a` itself (scope id included), for an IPv4 address it
is `a` with scope id 0. -/
theorem address_round_trip (bigEndian : Bool) (sin : sockaddr) (a : ENetAddress)
    (h : a.wf) :
    (enet_address_set_sin bigEndian sin a (enet_get_address_family a)).1 = 0 ∧
    (enet_address_set_address bigEndian
      (enet_address_set_sin bigEndian sin a (enet_get_address_family a)).2).1
        = enet_get_address_family a ∧
    (enet_address_set_address bigEndian
      (enet_address_set_sin bigEndian sin a (enet_get_address_family a)).2).2.host = a.host ∧
    (enet_address_set_address bigEndian
      (enet_address_set_sin bigEndian sin a (enet_get_address_family a)).2).2.port = a.port ∧
    (enet_address_set_address bigEndian
      (enet_address_set_sin bigEndian sin a (enet_get_address_family a)).2).2
        = (if enet_get_address_family a = ENET_IPV6 then a else { a with scopeID := 0 }) := by
  obtain ⟨hlen, _, hport⟩ := h
  by_cases hpre : a.host.addr.take 12 = ENET_IPV4MAPPED_PREFIX_BYTES
  · have hf : enet_get_address_family a = ENET_IPV4 := by
      simp [enet_get_address_family, hpre]
    have hh := map4_of_mapped a.host hlen hpre
    have hp := net_to_host_to_net bigEndian a.port hport
    simp [hf, enet_address_set_sin, enet_address_set_address, ENetAddress.zero, hh, hp]
  · have hf : enet_get_address_family a = ENET_IPV6 := by
      simp [enet_get_address_family, hpre]
    have hp := net_to_host_to_net bigEndian a.port hport
    simp [hf, enet_address_set_sin, enet_address_set_address, ENetAddress.zero, hp]

theorem address_round_trip_witness :
    (enet_address_set_address false
      (enet_address_set_sin false (.other 99)
        ⟨⟨[0, 0, 0, 0, 0, 0, 0, 0, 0, 0, 255, 255, 192, 168, 1, 2]⟩, 7, 8080⟩
        (enet_get_address_family
          ⟨⟨[0, 0, 0, 0, 0, 0, 0, 0, 0, 0, 255, 255, 192, 168, 1, 2]⟩, 7, 8080⟩)).2).2.host
      = ⟨[0, 0, 0, 0, 0, 0, 0, 0, 0, 0, 255, 255, 192, 168, 1, 2]⟩ ∧
    (enet_address_set_address true
      (enet_address_set_sin true (.other 99)
        ⟨⟨[254, 128, 0, 0, 0, 0, 0, 0, 0, 0, 0, 0, 0, 0, 0, 1]⟩, 3, 65535⟩
        (enet_get_address_family
          ⟨⟨[254, 128, 0, 0, 0, 0, 0, 0, 0, 0, 0, 0, 0, 0, 0, 1]⟩, 3, 65535⟩)).2).2
      = (if enet_get_address_family
            ⟨⟨[254, 128, 0, 0, 0, 0, 0, 0, 0, 0, 0, 0, 0, 0, 0, 1]⟩, 3, 65535⟩ = ENET_IPV6
          then ⟨⟨[254, 128, 0, 0, 0, 0, 0, 0, 0, 0, 0, 0, 0, 0, 0, 1]⟩, 3, 65535⟩
          else { (⟨⟨[254, 128, 0, 0, 0, 0, 0, 0, 0, 0, 0, 0, 0, 0, 0, 1]⟩, 3, 65535⟩ :
            ENetAddress) with scopeID := 0 }) :=
  ⟨(address_round_trip false (.other 99)
      ⟨⟨[0, 0, 0, 0, 0, 0, 0, 0, 0, 0, 255, 255, 192, 168, 1, 2]⟩, 7, 8080⟩
      (by decide)).2.2.1,
   (address_round_trip true (.other 99)
      ⟨⟨[254, 128, 0, 0, 0, 0, 0, 0, 0, 0, 0, 0, 0, 0, 0, 1]⟩, 3, 65535⟩
      (by decide)).2.2.2.2⟩

/-- C2: for every address `a`, requested family `f`, byte order and prior
buffer content, `enet_address_set_sin` returns 0 or -1, and returns 0 exactly
when `f` is IPv6, or `f` is IPv4 and the host of `a` is IPv4-mapped or equals
`ENET_HOST_ANY`; the wildcard requested as IPv4 gives the native form with
family `AF_INET`, address 0.0.0.0 and port `ENET_HOST_TO_NET_16 (port)`. -/
theorem enet_address_set_sin_success_iff (bigEndian : Bool) (sin : sockaddr)
    (a : ENetAddress) (f : ENetAddressFamily) (scopeID port : Nat) :
    ((enet_address_set_sin bigEndian sin a f).1 = 0 ↔
      (f = ENET_IPV6 ∨
        (f = ENET_IPV4 ∧ (enet_get_address_family a = ENET_IPV4 ∨ a.host = ENET_HOST_ANY)))) ∧
    ((enet_address_set_sin bigEndian sin a f).1 = -1 ↔
      ¬ (f = ENET_IPV6 ∨
        (f = ENET_IPV4 ∧ (enet_get_address_family a = ENET_IPV4 ∨ a.host = ENET_HOST_ANY)))) ∧
    (enet_address_set_sin bigEndian sin a ENET_NO_ADDRESS_FAMILY).1 = -1 ∧
    enet_address_set_sin bigEndian sin ⟨ENET_HOST_ANY, scopeID, port⟩ ENET_IPV4
      = (0, .in4 { sin_port := ENET_HOST_TO_NET_16 bigEndian port, sin_addr := [0, 0, 0, 0] }) ∧
    (enet_address_set_sin bigEndian sin ⟨ENET_HOST_ANY, scopeID, port⟩ ENET_IPV4).2.sa_family
      = AF_INET := by
  refine ⟨?_, ?_, ?_, ?_, ?_⟩
  · unfold enet_address_set_sin
    cases f <;> by_cases h4 : enet_get_address_family a = ENET_IPV4 <;>
      by_cases hany : a.host = ENET_HOST_ANY <;> simp [h4, hany]
  · unfold enet_address_set_sin
    cases f <;> by_cases h4 : enet_get_address_family a = ENET_IPV4 <;>
      by_cases hany : a.host = ENET_HOST_ANY <;> simp [h4, hany]
  · simp [enet_address_set_sin]
  · simp [enet_address_set_sin, ENET_HOST_ANY]
  · simp [enet_address_set_sin, sockaddr.sa_family]

/-! ## Host resolution -/

theorem decode_family_iff (bigEndian : Bool) (sa : sockaddr) :
    (enet_address_set_address bigEndian sa).1 ≠ ENET_NO_ADDRESS_FAMILY ↔
      sa.recognised = true := by
  cases sa <;> simp [enet_address_set_address, sockaddr.recognised]

theorem decode_host_scope (bigEndian : Bool) (sa : sockaddr) :
    (enet_address_set_address bigEndian sa).2.host = sa.neutral_host ∧
    (enet_address_set_address bigEndian sa).2.scopeID = sa.neutral_scope := by
  cases sa <;>
    simp [enet_address_set_address, sockaddr.neutral_host, sockaddr.neutral_scope,
      ENetAddress.zero]

theorem set_host_loop_found (bigEndian : Bool) (result : List addrinfo) :
    ∀ (address : ENetAddress) (c : addrinfo), first_recognised result = some c →
      enet_address_set_host_loop bigEndian address result
        = ((enet_address_set_address bigEndian c.ai_addr).2, false) := by
  induction result with
  | nil => intro address c h; simp [first_recognised] at h
  | cons x xs ih =>
    intro address c h
    unfold first_recognised at h ih
    by_cases hx : x.ai_addr.recognised = true
    · simp only [List.find?_cons, hx, Option.some.injEq] at h
      subst h
      have hd := (decode_family_iff bigEndian x.ai_addr).2 hx
      simp [enet_address_set_host_loop, hd]
    · have hx2 : x.ai_addr.recognised = false := by simpa using hx
      simp only [List.find?_cons, hx2] at h
      have hd : (enet_address_set_address bigEndian x.ai_addr).1 = ENET_NO_ADDRESS_FAMILY := by
        by_contra hne
        exact hx ((decode_family_iff bigEndian x.ai_addr).1 hne)
      simp only [enet_address_set_host_loop, hd, ne_eq, not_true_eq_false, if_false]
      exact ih _ c h

theorem set_host_loop_exhausted (bigEndian : Bool) (result : List addrinfo) :
    ∀ (address : ENetAddress), first_recognised result = none →
      (enet_address_set_host_loop bigEndian address result).2 = true := by
  induction result with
  | nil => intro address _; simp [enet_address_set_host_loop]
  | cons x xs ih =>
    intro address h
    unfold first_recognised at h ih
    by_cases hx : x.ai_addr.recognised = true
    · simp [List.find?_cons, hx] at h
    · have hx2 : x.ai_addr.recognised = false := by simpa using hx
      simp only [List.find?_cons, hx2] at h
      have hd : (enet_address_set_address bigEndian x.ai_addr).1 = ENET_NO_ADDRESS_FAMILY := by
        by_contra hne
        exact hx ((decode_family_iff bigEndian x.ai_addr).1 hne)
      simp only [enet_address_set_host_loop, hd, ne_eq, not_true_eq_false, if_false]
      exact ih _ h

theorem first_recognised_none_iff (result : List addrinfo) :
    first_recognised result = none ↔ ∀ c ∈ result, c.ai_addr.recognised = false := by
  simp [first_recognised]

/-- C7: for every candidate list and every return value `gai` of the
resolution call, `enet_address_set_host` returns 0 exactly when the call
succeeded and some candidate's native address carries the tag `AF_INET` or
`AF_INET6`, and -1 exactly when the call failed or no candidate does; after a
successful call the address has the host and scope id of the first such
candidate in resolver order (IPv4-mapped host and scope id 0 for `AF_INET`,
the 16 address bytes and the scope id for `AF_INET6`) and the caller's port;
those are the host and scope id `enet_address_set_address` decodes for any
native address `sa`, and it recognises exactly the two tags (every `in4` and
`in6` address carries one). -/
theorem enet_address_set_host_first_candidate (bigEndian : Bool) (a : ENetAddress)
    (gai : Int) (result : List addrinfo) (s4 : sockaddr_in) (s6 : sockaddr_in6)
    (sa : sockaddr) :
    ((enet_address_set_host bigEndian a gai result).1 = 0 ↔
      (gai = 0 ∧ ∃ c ∈ result, c.ai_addr.recognised = true)) ∧
    ((enet_address_set_host bigEndian a gai result).1 = -1 ↔
      (gai ≠ 0 ∨ ∀ c ∈ result, c.ai_addr.recognised = false)) ∧
    ((first_recognised result).map fun c =>
        ((0 : Int),
          ({ host := c.ai_addr.neutral_host, scopeID := c.ai_addr.neutral_scope,
             port := a.port } : ENetAddress)))
      = (if (enet_address_set_host bigEndian a 0 result).1 = 0
          then some (enet_address_set_host bigEndian a 0 result) else none) ∧
    ((sockaddr.in4 s4).sa_family = AF_INET ∧ (sockaddr.in4 s4).recognised = true) ∧
    ((sockaddr.in6 s6).sa_family = AF_INET6 ∧ (sockaddr.in6 s6).recognised = true) ∧
    ((enet_address_set_address bigEndian sa).1 ≠ ENET_NO_ADDRESS_FAMILY ↔
      sa.recognised = true) ∧
    (enet_address_set_address bigEndian sa).2.host = sa.neutral_host ∧
    (enet_address_set_address bigEndian sa).2.scopeID = sa.neutral_scope := by
  refine ⟨?_, ?_, ?_, ⟨rfl, rfl⟩, ⟨rfl, rfl⟩, decode_family_iff bigEndian sa,
    (decode_host_scope bigEndian sa).1, (decode_host_scope bigEndian sa).2⟩
  · cases hfd : first_recognised result with
    | none =>
      have hloop := set_host_loop_exhausted bigEndian result a hfd
      have hall := (first_recognised_none_iff result).1 hfd
      by_cases hg : gai = 0
      · simp only [enet_address_set_host, hg, hloop]
        simp
        exact hall
      · simp [enet_address_set_host, hg]
    | some c =>
      have hloop := set_host_loop_found bigEndian result a c hfd
      have hex : ∃ c ∈ result, c.ai_addr.recognised = true := by
        unfold first_recognised at hfd
        exact ⟨c, List.mem_of_find?_eq_some hfd, by simpa using List.find?_some hfd⟩
      by_cases hg : gai = 0
      · simp only [enet_address_set_host, hg, hloop]
        simpa using hex
      · simp [enet_address_set_host, hg]
  · cases hfd : first_recognised result with
    | none =>
      have hloop := set_host_loop_exhausted bigEndian result a hfd
      have hall := (first_recognised_none_iff result).1 hfd
      by_cases hg : gai = 0
      · simp only [enet_address_set_host, hg, hloop]
        simp
        exact hall
      · simp [enet_address_set_host, hg]
    | some c =>
      have hloop := set_host_loop_found bigEndian result a c hfd
      have hnall : ¬ ∀ c ∈ result, c.ai_addr.recognised = false := by
        unfold first_recognised at hfd
        intro hall
        have h1 := hall c (List.mem_of_find?_eq_some hfd)
        have h2 : c.ai_addr.recognised = true := by simpa using List.find?_some hfd
        rw [h1] at h2
        exact Bool.noConfusion h2
      by_cases hg : gai = 0
      · simp only [enet_address_set_host, hg, hloop]
        simpa using hnall
      · simp [enet_address_set_host, hg]
  · cases hfd : first_recognised result with
    | none =>
      have hloop := set_host_loop_exhausted bigEndian result a hfd
      simp [enet_address_set_host, hloop]
    | some c =>
      have hloop := set_host_loop_found bigEndian result a c hfd
      have hd := decode_host_scope bigEndian c.ai_addr
      simp [enet_address_set_host, hloop, hd.1, hd.2]

/-- C8: for every input address, every outcome of the resolution call (error,
empty list, no decodable candidate, or candidates carrying ports of their
own), the port of the address after `enet_address_set_host` is the port it
had before. -/
theorem enet_address_set_host_preserves_port (bigEndian : Bool) (a : ENetAddress)
    (gai : Int) (result : List addrinfo) :
    (enet_address_set_host bigEndian a gai result).2.port = a.port := by
  unfold enet_address_set_host
  by_cases hg : gai = 0
  · by_cases hl : (enet_address_set_host_loop bigEndian a result).2 = true <;> simp [hg, hl]
  · simp [hg]

/-! ## Sockets -/

/-- C4, as stated, fails: the host `::1` is not IPv4-mapped, so encoding it as
IPv4 returns -1, yet `enet_socket_bind` with an OS `bind` that returns 0
returns 0: the result of `enet_address_set_sin` is not looked at. -/
theorem enet_socket_bind_ignores_translation_failure :
    (enet_address_set_sin false (.other 99)
      ⟨⟨[0, 0, 0, 0, 0, 0, 0, 0, 0, 0, 0, 0, 0, 0, 0, 1]⟩, 0, 7777⟩ ENET_IPV4).1 = -1 ∧
    enet_socket_bind false (fun _ _ _ => 0) (.other 99) 3
      (some ⟨⟨[0, 0, 0, 0, 0, 0, 0, 0, 0, 0, 0, 0, 0, 0, 0, 1]⟩, 0, 7777⟩) ENET_IPV4 = 0 := by
  decide

/-- C4, amended: when the translation fails, `enet_socket_bind` still calls
the OS `bind`, on the native buffer the failed translation left (zeroed for an
IPv4 request, untouched otherwise) with length `enet_sa_size (family)`, and
returns the result of that call. -/
theorem enet_socket_bind_returns_os_result (bigEndian : Bool)
    (bind : Int → sockaddr → Nat → Int) (sin : sockaddr) (socket : Int)
    (a : ENetAddress) (f : ENetAddressFamily)
    (hfail : (enet_address_set_sin bigEndian sin a f).1 = -1) :
    enet_socket_bind bigEndian bind sin socket (some a) f
      = bind socket (if f = ENET_IPV4 then .other AF_UNSPEC else sin) (enet_sa_size f) := by
  unfold enet_socket_bind
  unfold enet_address_set_sin at hfail ⊢
  cases f <;> by_cases h4 : enet_get_address_family a = ENET_IPV4 <;>
    by_cases hany : a.host = ENET_HOST_ANY <;>
    simp_all [sockaddr.memset_zero, enet_sa_size, sizeof_sockaddr_in]

theorem enet_socket_bind_returns_os_result_witness :
    enet_socket_bind false (fun _ sa len => if sa = .other AF_UNSPEC ∧ len = 16 then 0 else -1)
      (.other 99) 3 (some ⟨⟨[0, 0, 0, 0, 0, 0, 0, 0, 0, 0, 0, 0, 0, 0, 0, 1]⟩, 0, 7777⟩) ENET_IPV4
      = (fun (_ : Int) (sa : sockaddr) (len : Nat) =>
          if sa = .other AF_UNSPEC ∧ len = 16 then (0 : Int) else -1) 3
          (if ENET_IPV4 = ENET_IPV4 then .other AF_UNSPEC else .other 99)
          (enet_sa_size ENET_IPV4) :=
  enet_socket_bind_returns_os_result false
    (fun _ sa len => if sa = .other AF_UNSPEC ∧ len = 16 then 0 else -1) (.other 99) 3
    ⟨⟨[0, 0, 0, 0, 0, 0, 0, 0, 0, 0, 0, 0, 0, 0, 0, 1]⟩, 0, 7777⟩ ENET_IPV4 (by decide)

/-- C5, as stated, fails: built without `HAS_MSGHDR_FLAGS`, a receive into a
4-byte buffer of a 5-byte datagram, which the OS truncates to 4 bytes and
marks with `MSG_TRUNC`, returns 4. -/
theorem enet_socket_receive_truncated_without_flags :
    buffers_capacity [⟨4, [0, 0, 0, 0]⟩] = 4 ∧
    (recvmsg_datagram 5 (.other 0) 3
      (enet_socket_receive_msghdr (.other 0) none [⟨4, [0, 0, 0, 0]⟩] ENET_IPV4)
      MSG_NOSIGNAL).msg_flags &&& MSG_TRUNC ≠ 0 ∧
    (enet_socket_receive false false (recvmsg_datagram 5 (.other 0)) (.other 0) 3 none
      [⟨4, [0, 0, 0, 0]⟩] ENET_IPV4).1 = 4 := by
  decide

/-- C5, amended: in a build with `HAS_MSGHDR_FLAGS`, whenever the OS call
returns a length and marks the message as truncated (`MSG_TRUNC` in
`msg_flags`), `enet_socket_receive` returns -1 and leaves `*address` as it
was. -/
theorem enet_socket_receive_truncation_fails (bigEndian : Bool)
    (recvmsg : Int → msghdr → Nat → recvmsg_result) (sin : sockaddr)
    (socket : Int) (address : Option ENetAddress) (buffers : List ENetBuffer)
    (family : ENetAddressFamily)
    (hlen : 0 ≤ (recvmsg socket (enet_socket_receive_msghdr sin address buffers family)
      MSG_NOSIGNAL).ret)
    (htrunc : (recvmsg socket (enet_socket_receive_msghdr sin address buffers family)
      MSG_NOSIGNAL).msg_flags &&& MSG_TRUNC ≠ 0) :
    enet_socket_receive bigEndian true recvmsg sin socket address buffers family
      = (-1, address) := by
  unfold enet_socket_receive
  have hne : (recvmsg socket (enet_socket_receive_msghdr sin address buffers family)
      MSG_NOSIGNAL).ret ≠ -1 := by omega
  simp [hne, htrunc]

theorem enet_socket_receive_truncation_fails_witness :
    enet_socket_receive false true (recvmsg_datagram 5 (.other 0)) (.other 0) 3 none
      [⟨4, [0, 0, 0, 0]⟩] ENET_IPV4 = (-1, none) :=
  enet_socket_receive_truncation_fails false (recvmsg_datagram 5 (.other 0)) (.other 0) 3 none
    [⟨4, [0, 0, 0, 0]⟩] ENET_IPV4 (by decide) (by decide)

/-- C6: for every outcome of `sendmsg` on the header the function builds,
`enet_socket_send` returns 0 exactly when the OS reported `EWOULDBLOCK` or
sent 0 bytes, returns -1 exactly when the OS reported any other error, and in
every case without an OS error returns the length the OS reported. -/
theorem enet_socket_send_result (bigEndian : Bool)
    (sendmsg : Int → msghdr → Nat → sendmsg_result) (sin : sockaddr)
    (socket : Int) (address : Option ENetAddress) (buffers : List ENetBuffer)
    (family : ENetAddressFamily) :
    (enet_socket_send bigEndian sendmsg sin socket address buffers family = 0 ↔
      (((sendmsg socket (enet_socket_send_msghdr bigEndian sin address buffers family)
          MSG_NOSIGNAL).ret = -1 ∧
        (sendmsg socket (enet_socket_send_msghdr bigEndian sin address buffers family)
          MSG_NOSIGNAL).errno = EWOULDBLOCK) ∨
       (sendmsg socket (enet_socket_send_msghdr bigEndian sin address buffers family)
          MSG_NOSIGNAL).ret = 0)) ∧
    (enet_socket_send bigEndian sendmsg sin socket address buffers family = -1 ↔
      ((sendmsg socket (enet_socket_send_msghdr bigEndian sin address buffers family)
          MSG_NOSIGNAL).ret = -1 ∧
        (sendmsg socket (enet_socket_send_msghdr bigEndian sin address buffers family)
          MSG_NOSIGNAL).errno ≠ EWOULDBLOCK)) ∧
    ((sendmsg socket (enet_socket_send_msghdr bigEndian sin address buffers family)
        MSG_NOSIGNAL).ret = -1 ∨
      enet_socket_send bigEndian sendmsg sin socket address buffers family =
        (sendmsg socket (enet_socket_send_msghdr bigEndian sin address buffers family)
          MSG_NOSIGNAL).ret) := by
  simp only [enet_socket_send]
  generalize sendmsg socket (enet_socket_send_msghdr bigEndian sin address buffers family)
    MSG_NOSIGNAL = r
  by_cases h1 : r.ret = -1 <;> by_cases h2 : r.errno = EWOULDBLOCK <;> simp [h1, h2]


/-! ## Readiness wait -/

theorem or_eq_zero_iff (x y : Nat) : x ||| y = 0 ↔ x = 0 ∧ y = 0 := by
  constructor
  · intro h
    constructor
    · apply Nat.eq_of_testBit_eq
      intro i
      have hi := congrArg (fun n => Nat.testBit n i) h
      simp [Nat.testBit_or] at hi
      simp [hi.1]
    · apply Nat.eq_of_testBit_eq
      intro i
      have hi := congrArg (fun n => Nat.testBit n i) h
      simp [Nat.testBit_or] at hi
      simp [hi.2]
  · rintro ⟨rfl, rfl⟩
    rfl

theorem or_and_ne_zero (a b m : Nat) :
    (a ||| b) &&& m ≠ 0 ↔ (a &&& m ≠ 0 ∨ b &&& m ≠ 0) := by
  rw [Nat.and_comm, Nat.and_or_distrib_left, Nat.and_comm m a, Nat.and_comm m b, ne_eq,
    or_eq_zero_iff]
  tauto

theorem ite_and_ne_zero (c : Prop) [Decidable c] (k m : Nat) :
    (if c then k else 0) &&& m ≠ 0 ↔ (c ∧ k &&& m ≠ 0) := by
  by_cases hc : c <;> simp [hc]

theorem poll_revents_pollout (os : Readiness) (p : pollfd) :
    poll_revents os p &&& POLLOUT ≠ 0 ↔
      (0 ≤ p.fd ∧ os.opened p.fd = true ∧ p.events &&& POLLOUT ≠ 0 ∧
        os.writable p.fd = true) := by
  unfold poll_revents
  by_cases hfd : p.fd < 0
  · have : ¬ 0 ≤ p.fd := by omega
    simp [hfd, this]
  · have hnn : 0 ≤ p.fd := by omega
    by_cases hop : os.opened p.fd = true
    · have hop2 : ¬ os.opened p.fd = false := by simp [hop]
      have e1 : POLLIN &&& POLLOUT = 0 := by decide
      have e2 : POLLOUT &&& POLLOUT ≠ 0 := by decide
      have e3 : POLLERR &&& POLLOUT = 0 := by decide
      have e4 : POLLHUP &&& POLLOUT = 0 := by decide
      rw [if_neg hfd, if_neg hop2]
      simp only [hnn, hop, true_and, or_and_ne_zero, ite_and_ne_zero, e1, e3, e4]
      simp only [ne_eq, not_true_eq_false, and_false, false_or, or_false]
      tauto
    · have hop2 : os.opened p.fd = false := by simpa using hop
      have e5 : POLLNVAL &&& POLLOUT = 0 := by decide
      simp [hfd, hop2, e5]

theorem poll_revents_pollin (os : Readiness) (p : pollfd) :
    poll_revents os p &&& POLLIN ≠ 0 ↔
      (0 ≤ p.fd ∧ os.opened p.fd = true ∧ p.events &&& POLLIN ≠ 0 ∧
        os.readable p.fd = true) := by
  unfold poll_revents
  by_cases hfd : p.fd < 0
  · have : ¬ 0 ≤ p.fd := by omega
    simp [hfd, this]
  · have hnn : 0 ≤ p.fd := by omega
    by_cases hop : os.opened p.fd = true
    · have hop2 : ¬ os.opened p.fd = false := by simp [hop]
      have e1 : POLLIN &&& POLLIN ≠ 0 := by decide
      have e2 : POLLOUT &&& POLLIN = 0 := by decide
      have e3 : POLLERR &&& POLLIN = 0 := by decide
      have e4 : POLLHUP &&& POLLIN = 0 := by decide
      rw [if_neg hfd, if_neg hop2]
      simp only [hnn, hop, true_and, or_and_ne_zero, ite_and_ne_zero, e2, e3, e4]
      simp only [ne_eq, not_true_eq_false, and_false, false_or, or_false]
      tauto
    · have hop2 : os.opened p.fd = false := by simpa using hop
      have e5 : POLLNVAL &&& POLLIN = 0 := by decide
      simp [hfd, hop2, e5]

/-- The event mask both entries of `pollSocket` get. -/
theorem pollfds_eq (revents0 : Nat) (socket4 socket6 : Int) (condition : Nat) :
    ∃ ev : Nat,
      (ev &&& POLLOUT ≠ 0 ↔ condition &&& ENET_SOCKET_WAIT_SEND ≠ 0) ∧
      (ev &&& POLLIN ≠ 0 ↔ condition &&& ENET_SOCKET_WAIT_RECEIVE ≠ 0) ∧
      enet_socket_wait_pollfds revents0 socket4 socket6 condition =
        ([{ fd := if socket4 = ENET_SOCKET_NULL then socket6 else socket4,
            events := ev, revents := revents0 },
          { fd := if socket4 = ENET_SOCKET_NULL then ENET_SOCKET_NULL else socket6,
            events := ev, revents := 0 }],
         if socket4 = ENET_SOCKET_NULL ∨ socket6 = ENET_SOCKET_NULL then 1 else 2) := by
  unfold enet_socket_wait_pollfds
  by_cases hs : condition &&& ENET_SOCKET_WAIT_SEND ≠ 0 <;>
    by_cases hr : condition &&& ENET_SOCKET_WAIT_RECEIVE ≠ 0
  · refine ⟨0 ||| POLLOUT ||| POLLIN, iff_of_true (by decide) hs, iff_of_true (by decide) hr, ?_⟩
    by_cases h4 : socket4 = ENET_SOCKET_NULL <;> by_cases h6 : socket6 = ENET_SOCKET_NULL <;>
      simp [hs, hr, h4, h6]
  · refine ⟨0 ||| POLLOUT, iff_of_true (by decide) hs, iff_of_false (by decide) hr, ?_⟩
    by_cases h4 : socket4 = ENET_SOCKET_NULL <;> by_cases h6 : socket6 = ENET_SOCKET_NULL <;>
      simp [hs, hr, h4, h6]
  · refine ⟨0 ||| POLLIN, iff_of_false (by decide) hs, iff_of_true (by decide) hr, ?_⟩
    by_cases h4 : socket4 = ENET_SOCKET_NULL <;> by_cases h6 : socket6 = ENET_SOCKET_NULL <;>
      simp [hs, hr, h4, h6]
  · refine ⟨0, iff_of_false (by decide) hs, iff_of_false (by decide) hr, ?_⟩
    by_cases h4 : socket4 = ENET_SOCKET_NULL <;> by_cases h6 : socket6 = ENET_SOCKET_NULL <;>
      simp [hs, hr, h4, h6]

theorem poll_result_eq (pollCount : Int) (revents0 revents1 condition : Nat)
    (hnn : 0 ≤ pollCount) (hzero : pollCount = 0 → revents0 = 0 ∧ revents1 = 0) :
    enet_socket_wait_poll_result pollCount revents0 revents1 condition =
      (0,
        (if (revents0 ||| revents1) &&& POLLOUT ≠ 0
          then ENET_SOCKET_WAIT_SEND else ENET_SOCKET_WAIT_NONE) |||
        (if (revents0 ||| revents1) &&& POLLIN ≠ 0
          then ENET_SOCKET_WAIT_RECEIVE else ENET_SOCKET_WAIT_NONE)) := by
  unfold enet_socket_wait_poll_result
  have hlt : ¬ pollCount < 0 := by omega
  by_cases h0 : pollCount = 0
  · obtain ⟨h1, h2⟩ := hzero h0
    subst h1 h2
    rw [if_neg hlt, if_pos h0]
    decide
  · rw [if_neg hlt, if_neg h0]
    dsimp only
    by_cases ho : (revents0 ||| revents1) &&& POLLOUT ≠ 0 <;>
      by_cases hi : (revents0 ||| revents1) &&& POLLIN ≠ 0
    · rw [if_pos ho, if_pos hi, if_pos ho, if_pos hi]; rfl
    · rw [if_pos ho, if_neg hi, if_pos ho, if_neg hi]; rfl
    · rw [if_neg ho, if_pos hi, if_neg ho, if_pos hi]
    · rw [if_neg ho, if_neg hi, if_neg ho, if_neg hi]; rfl

theorem poll_revents_negative (os : Readiness) (p : pollfd) (h : p.fd < 0) :
    poll_revents os p = 0 := by
  simp [poll_revents, h]

theorem poll_two (os : Readiness) (hf : os.failed = false) (p0 p1 : pollfd) (n : Nat)
    (hn : n = 1 ∨ n = 2) (h1 : n = 1 → p1.fd < 0 ∧ p1.revents = 0) :
    0 ≤ (poll_report os [p0, p1] n).1 ∧
    ((poll_report os [p0, p1] n).1 = 0 →
      poll_revents os p0 = 0 ∧ poll_revents os p1 = 0) ∧
    ((poll_report os [p0, p1] n).2.map pollfd.revents).getD 0 0 = poll_revents os p0 ∧
    ((poll_report os [p0, p1] n).2.map pollfd.revents).getD 1 0 = poll_revents os p1 := by
  rcases hn with rfl | rfl
  · obtain ⟨hneg, hr⟩ := h1 rfl
    have hz := poll_revents_negative os p1 hneg
    by_cases h0 : poll_revents os p0 = 0 <;> simp [poll_report, hf, h0, hz, hr, List.filter]
  · by_cases h0 : poll_revents os p0 = 0 <;> by_cases h1 : poll_revents os p1 = 0 <;>
      simp [poll_report, hf, h0, h1, List.filter]

theorem merge_congr (A B C D : Prop) [Decidable A] [Decidable B] [Decidable C]
    [Decidable D] (hAC : A ↔ C) (hBD : B ↔ D) (x y z : Nat) :
    ((if A then x else z) ||| (if B then y else z)) =
      ((if C then x else z) ||| (if D then y else z)) := by
  by_cases hA : A <;> by_cases hB : B
  · rw [if_pos hA, if_pos hB, if_pos (hAC.1 hA), if_pos (hBD.1 hB)]
  · rw [if_pos hA, if_neg hB, if_pos (hAC.1 hA), if_neg (fun h => hB (hBD.2 h))]
  · rw [if_neg hA, if_pos hB, if_neg (fun h => hA (hAC.2 h)), if_pos (hBD.1 hB)]
  · rw [if_neg hA, if_neg hB, if_neg (fun h => hA (hAC.2 h)), if_neg (fun h => hB (hBD.2 h))]

/-- What `socket_quiet` gives for a handle that is not the sentinel. -/
theorem quiet_facts (os : Readiness) (socket : Int) (h : socket_quiet os socket)
    (hn : socket ≠ ENET_SOCKET_NULL) :
    0 ≤ socket ∧ socket < FD_SETSIZE ∧ os.opened socket = true ∧
      os.error socket = false ∧ os.hangup socket = false := by
  rcases h with h | h
  · exact absurd h hn
  · exact h

theorem quiet_nonneg_iff (os : Readiness) (socket : Int) (h : socket_quiet os socket) :
    0 ≤ socket ↔ socket ≠ ENET_SOCKET_NULL := by
  constructor
  · intro h0 hn
    rw [hn] at h0
    exact absurd h0 (by decide)
  · intro hn
    exact (quiet_facts os socket h hn).1

theorem poll_duration_eq (timeout : Nat) (ht : timeout < 2147483648) :
    poll_duration (to_int timeout) = some (timeout * 1000) := by
  unfold poll_duration to_int
  have h1 : timeout % 4294967296 = timeout := Nat.mod_eq_of_lt (by omega)
  rw [h1, if_pos ht]
  have h2 : ¬ ((timeout : Int) < 0) := by omega
  rw [if_neg h2]
  simp

theorem select_duration_eq (timeout : Nat) :
    select_duration
      { tv_sec := ((timeout / 1000 : Nat) : Int),
        tv_usec := (((timeout % 1000) * 1000 : Nat) : Int) } = some (timeout * 1000) := by
  unfold select_duration
  simp only [Int.toNat_ofNat, Option.some.injEq]
  omega

theorem enet_socket_wait_poll_eq (kernel : Kernel) (revents0 : Nat)
    (socket4 socket6 : Int) (condition timeout : Nat) (ht : timeout < 2147483648)
    (h4 : socket_quiet (kernel (some (timeout * 1000))) socket4)
    (h6 : socket_quiet (kernel (some (timeout * 1000))) socket6) :
    enet_socket_wait_poll kernel revents0 socket4 socket6 condition timeout
      = wait_result (kernel (some (timeout * 1000))) socket4 socket6 condition := by
  obtain ⟨ev, hout, hin, hfds⟩ := pollfds_eq revents0 socket4 socket6 condition
  unfold enet_socket_wait_poll wait_result poll
  rw [hfds, poll_duration_eq timeout ht]
  generalize kernel (some (timeout * 1000)) = os at h4 h6 ⊢
  dsimp only
  cases hf : os.failed
  · have hnull : ¬ (0 : Int) ≤ ENET_SOCKET_NULL := by decide
    have hv4 := quiet_nonneg_iff os socket4 h4
    have hv6 := quiet_nonneg_iff os socket6 h6
    have ho4 : socket4 ≠ ENET_SOCKET_NULL → os.opened socket4 = true :=
      fun hn => (quiet_facts os socket4 h4 hn).2.2.1
    have ho6 : socket6 ≠ ENET_SOCKET_NULL → os.opened socket6 = true :=
      fun hn => (quiet_facts os socket6 h6 hn).2.2.1
    obtain ⟨hc, hz, e0, e1⟩ := poll_two os hf
      { fd := if socket4 = ENET_SOCKET_NULL then socket6 else socket4,
        events := ev, revents := revents0 }
      { fd := if socket4 = ENET_SOCKET_NULL then ENET_SOCKET_NULL else socket6,
        events := ev, revents := 0 }
      (if socket4 = ENET_SOCKET_NULL ∨ socket6 = ENET_SOCKET_NULL then 1 else 2)
      (by by_cases h : socket4 = ENET_SOCKET_NULL ∨ socket6 = ENET_SOCKET_NULL <;> simp [h])
      (by
        intro hn
        refine ⟨?_, rfl⟩
        by_cases h4n : socket4 = ENET_SOCKET_NULL
        · simp [h4n, ENET_SOCKET_NULL]
        · by_cases h6n : socket6 = ENET_SOCKET_NULL
          · simp [h4n, h6n, ENET_SOCKET_NULL]
          · simp [h4n, h6n] at hn)
    rw [e0, e1, poll_result_eq _ _ _ _ hc hz]
    simp only [or_and_ne_zero, poll_revents_pollout, poll_revents_pollin, hout, hin,
      Bool.false_eq_true, if_false]
    clear hc hz e0 e1 hfds
    have hside : ∀ (S : Prop) (w : Int → Bool),
        ((0 ≤ (if socket4 = ENET_SOCKET_NULL then socket6 else socket4) ∧
            os.opened (if socket4 = ENET_SOCKET_NULL then socket6 else socket4) = true ∧
            S ∧ w (if socket4 = ENET_SOCKET_NULL then socket6 else socket4) = true) ∨
          (0 ≤ (if socket4 = ENET_SOCKET_NULL then ENET_SOCKET_NULL else socket6) ∧
            os.opened (if socket4 = ENET_SOCKET_NULL then ENET_SOCKET_NULL else socket6)
              = true ∧
            S ∧ w (if socket4 = ENET_SOCKET_NULL then ENET_SOCKET_NULL else socket6) = true)) ↔
        (S ∧ ((socket4 ≠ ENET_SOCKET_NULL ∧ w socket4 = true) ∨
          (socket6 ≠ ENET_SOCKET_NULL ∧ w socket6 = true))) := by
      intro S w
      by_cases h4n : socket4 = ENET_SOCKET_NULL
      · simp only [if_pos h4n]
        constructor
        · rintro (⟨h0, _, hS, hw⟩ | ⟨h0, _⟩)
          · exact ⟨hS, Or.inr ⟨hv6.1 h0, hw⟩⟩
          · exact absurd h0 hnull
        · rintro ⟨hS, (⟨hn, _⟩ | ⟨hn, hw⟩)⟩
          · exact absurd h4n hn
          · exact Or.inl ⟨hv6.2 hn, ho6 hn, hS, hw⟩
      · simp only [if_neg h4n]
        constructor
        · rintro (⟨h0, _, hS, hw⟩ | ⟨h0, _, hS, hw⟩)
          · exact ⟨hS, Or.inl ⟨hv4.1 h0, hw⟩⟩
          · exact ⟨hS, Or.inr ⟨hv6.1 h0, hw⟩⟩
        · rintro ⟨hS, (⟨hn, hw⟩ | ⟨hn, hw⟩)⟩
          · exact Or.inl ⟨hv4.2 hn, ho4 hn, hS, hw⟩
          · exact Or.inr ⟨hv6.2 hn, ho6 hn, hS, hw⟩
    exact congrArg (Prod.mk 0) (merge_congr _ _ _ _
      (hside (condition &&& ENET_SOCKET_WAIT_SEND ≠ 0) os.writable)
      (hside (condition &&& ENET_SOCKET_WAIT_RECEIVE ≠ 0) os.readable) _ _ _)
  · simp [poll_report, hf, enet_socket_wait_poll_result]

theorem fd_count_zero (nfds : Int) (set : fd_set) (h : fd_count nfds set = 0)
    (fd : Int) (h0 : 0 ≤ fd) (hlt : fd < nfds) : set fd = false := by
  unfold fd_count at h
  rw [List.length_eq_zero, List.filter_eq_nil_iff] at h
  have hm : fd.toNat ∈ List.range nfds.toNat := by
    rw [List.mem_range]
    omega
  have hfd : Int.ofNat fd.toNat = fd := Int.toNat_of_nonneg h0
  have hn := h fd.toNat hm
  rw [hfd] at hn
  simpa using hn

theorem select_bad_false (os : Readiness) (nfds : Int) (readSet writeSet : fd_set)
    (h : ∀ fd, (readSet fd = true ∨ writeSet fd = true) → os.opened fd = true) :
    select_bad os nfds readSet writeSet = false := by
  unfold select_bad
  rw [List.any_eq_false]
  intro i _
  simpa using h (Int.ofNat i)

theorem FD_ISSET_some (fd : Int) (set : fd_set) (h0 : 0 ≤ fd) (hlt : fd < FD_SETSIZE) :
    FD_ISSET fd set = some (set fd) := by
  simp [FD_ISSET, h0, hlt]

theorem isset_eq (socket4 socket6 : Int) (set : fd_set)
    (h4 : socket4 ≠ ENET_SOCKET_NULL → 0 ≤ socket4 ∧ socket4 < FD_SETSIZE)
    (h6 : socket6 ≠ ENET_SOCKET_NULL → 0 ≤ socket6 ∧ socket6 < FD_SETSIZE) :
    enet_socket_wait_isset socket4 socket6 set =
      some (decide ((socket4 ≠ ENET_SOCKET_NULL ∧ set socket4 = true) ∨
        (socket6 ≠ ENET_SOCKET_NULL ∧ set socket6 = true))) := by
  unfold enet_socket_wait_isset
  by_cases h4n : socket4 = ENET_SOCKET_NULL <;> by_cases h6n : socket6 = ENET_SOCKET_NULL
  · simp [h4n, h6n]
  · have e6 := FD_ISSET_some socket6 set (h6 h6n).1 (h6 h6n).2
    simp [h4n, h6n, e6]
  · have e4 := FD_ISSET_some socket4 set (h4 h4n).1 (h4 h4n).2
    cases hs : set socket4 <;> simp [h4n, h6n, e4, hs]
  · have e4 := FD_ISSET_some socket4 set (h4 h4n).1 (h4 h4n).2
    have e6 := FD_ISSET_some socket6 set (h6 h6n).1 (h6 h6n).2
    cases hs : set socket4 <;> simp [h4n, h6n, e4, e6, hs]

theorem select_result_eq (selectCount : Int) (readSet writeSet : fd_set)
    (socket4 socket6 : Int) (condition : Nat) (hnn : 0 ≤ selectCount)
    (h4 : socket4 ≠ ENET_SOCKET_NULL → 0 ≤ socket4 ∧ socket4 < FD_SETSIZE)
    (h6 : socket6 ≠ ENET_SOCKET_NULL → 0 ≤ socket6 ∧ socket6 < FD_SETSIZE)
    (hzero : selectCount = 0 →
      ¬ ((socket4 ≠ ENET_SOCKET_NULL ∧ writeSet socket4 = true) ∨
          (socket6 ≠ ENET_SOCKET_NULL ∧ writeSet socket6 = true)) ∧
      ¬ ((socket4 ≠ ENET_SOCKET_NULL ∧ readSet socket4 = true) ∨
          (socket6 ≠ ENET_SOCKET_NULL ∧ readSet socket6 = true))) :
    enet_socket_wait_select_result selectCount readSet writeSet socket4 socket6 condition =
      some (0,
        (if (socket4 ≠ ENET_SOCKET_NULL ∧ writeSet socket4 = true) ∨
            (socket6 ≠ ENET_SOCKET_NULL ∧ writeSet socket6 = true)
          then ENET_SOCKET_WAIT_SEND else ENET_SOCKET_WAIT_NONE) |||
        (if (socket4 ≠ ENET_SOCKET_NULL ∧ readSet socket4 = true) ∨
            (socket6 ≠ ENET_SOCKET_NULL ∧ readSet socket6 = true)
          then ENET_SOCKET_WAIT_RECEIVE else ENET_SOCKET_WAIT_NONE)) := by
  unfold enet_socket_wait_select_result
  have hlt : ¬ selectCount < 0 := by omega
  by_cases h0 : selectCount = 0
  · obtain ⟨h1, h2⟩ := hzero h0
    rw [if_neg hlt, if_pos h0, if_neg h1, if_neg h2]
    rfl
  · rw [if_neg hlt, if_neg h0, isset_eq socket4 socket6 writeSet h4 h6,
      isset_eq socket4 socket6 readSet h4 h6]
    by_cases ho : (socket4 ≠ ENET_SOCKET_NULL ∧ writeSet socket4 = true) ∨
        (socket6 ≠ ENET_SOCKET_NULL ∧ writeSet socket6 = true) <;>
      by_cases hi : (socket4 ≠ ENET_SOCKET_NULL ∧ readSet socket4 = true) ∨
        (socket6 ≠ ENET_SOCKET_NULL ∧ readSet socket6 = true)
    · rw [if_pos ho, if_pos hi]
      simp only [decide_eq_true ho, decide_eq_true hi]
      rfl
    · rw [if_pos ho, if_neg hi]
      simp only [decide_eq_true ho, decide_eq_false hi]
      rfl
    · rw [if_neg ho, if_pos hi]
      simp only [decide_eq_false ho, decide_eq_true hi]
      rfl
    · rw [if_neg ho, if_neg hi]
      simp only [decide_eq_false ho, decide_eq_false hi]
      rfl

theorem FD_SET_some (fd : Int) (set : fd_set) (h0 : 0 ≤ fd) (hlt : fd < FD_SETSIZE) :
    FD_SET fd set = some (fun x => if x = fd then true else set x) := by
  simp [FD_SET, h0, hlt]

/-- The sets and `maxSocket` prepared for `select`. -/
theorem fdsets_eq (socket4 socket6 : Int) (condition : Nat)
    (h4 : socket4 ≠ ENET_SOCKET_NULL → 0 ≤ socket4 ∧ socket4 < FD_SETSIZE)
    (h6 : socket6 ≠ ENET_SOCKET_NULL → 0 ≤ socket6 ∧ socket6 < FD_SETSIZE) :
    ∃ sets : fd_set × fd_set × Int,
      enet_socket_wait_fdsets socket4 socket6 condition = some sets ∧
      (∀ fd, sets.1 fd = true ↔
        (condition &&& ENET_SOCKET_WAIT_RECEIVE ≠ 0 ∧
          ((socket4 ≠ ENET_SOCKET_NULL ∧ fd = socket4) ∨
            (socket6 ≠ ENET_SOCKET_NULL ∧ fd = socket6)))) ∧
      (∀ fd, sets.2.1 fd = true ↔
        (condition &&& ENET_SOCKET_WAIT_SEND ≠ 0 ∧
          ((socket4 ≠ ENET_SOCKET_NULL ∧ fd = socket4) ∨
            (socket6 ≠ ENET_SOCKET_NULL ∧ fd = socket6)))) ∧
      (socket4 ≠ ENET_SOCKET_NULL → socket4 ≤ sets.2.2) ∧
      (socket6 ≠ ENET_SOCKET_NULL → socket6 ≤ sets.2.2) := by
  unfold enet_socket_wait_fdsets
  by_cases h4n : socket4 = ENET_SOCKET_NULL <;> by_cases h6n : socket6 = ENET_SOCKET_NULL
  · by_cases hs : condition &&& ENET_SOCKET_WAIT_SEND ≠ 0 <;>
      by_cases hr : condition &&& ENET_SOCKET_WAIT_RECEIVE ≠ 0 <;>
      simp [h4n, h6n, hs, hr, FD_ZERO]
  · have e6 := fun set => FD_SET_some socket6 set (h6 h6n).1 (h6 h6n).2
    have h60 := (h6 h6n).1
    by_cases hs : condition &&& ENET_SOCKET_WAIT_SEND ≠ 0 <;>
      by_cases hr : condition &&& ENET_SOCKET_WAIT_RECEIVE ≠ 0 <;>
      by_cases hgt : socket6 > 0 <;>
      simp [h4n, h6n, hs, hr, hgt, e6, FD_ZERO] <;> omega
  · have e4 := fun set => FD_SET_some socket4 set (h4 h4n).1 (h4 h4n).2
    by_cases hs : condition &&& ENET_SOCKET_WAIT_SEND ≠ 0 <;>
      by_cases hr : condition &&& ENET_SOCKET_WAIT_RECEIVE ≠ 0 <;>
      simp [h4n, h6n, hs, hr, e4, FD_ZERO]
  · have e4 := fun set => FD_SET_some socket4 set (h4 h4n).1 (h4 h4n).2
    have e6 := fun set => FD_SET_some socket6 set (h6 h6n).1 (h6 h6n).2
    by_cases hs : condition &&& ENET_SOCKET_WAIT_SEND ≠ 0 <;>
      by_cases hr : condition &&& ENET_SOCKET_WAIT_RECEIVE ≠ 0 <;>
      by_cases hgt : socket6 > socket4 <;>
      simp [h4n, h6n, hs, hr, hgt, e4, e6, FD_ZERO, or_comm] <;> omega

theorem select_set_apply (ready : Int → Bool) (nfds : Int) (set : fd_set) (fd : Int)
    (h0 : 0 ≤ fd) (hlt : fd < nfds) :
    select_set ready nfds set fd = true ↔ (set fd = true ∧ ready fd = true) := by
  simp [select_set, h0, hlt]

theorem select_side (ready plain : Int → Bool) (set : fd_set)
    (maxSocket socket4 socket6 : Int) (P : Prop)
    (h4 : socket4 ≠ ENET_SOCKET_NULL → 0 ≤ socket4 ∧ ready socket4 = plain socket4)
    (h6 : socket6 ≠ ENET_SOCKET_NULL → 0 ≤ socket6 ∧ ready socket6 = plain socket6)
    (hset : ∀ fd, set fd = true ↔
      (P ∧ ((socket4 ≠ ENET_SOCKET_NULL ∧ fd = socket4) ∨
        (socket6 ≠ ENET_SOCKET_NULL ∧ fd = socket6))))
    (hm4 : socket4 ≠ ENET_SOCKET_NULL → socket4 ≤ maxSocket)
    (hm6 : socket6 ≠ ENET_SOCKET_NULL → socket6 ≤ maxSocket) :
    ((socket4 ≠ ENET_SOCKET_NULL ∧ select_set ready (maxSocket + 1) set socket4 = true) ∨
      (socket6 ≠ ENET_SOCKET_NULL ∧ select_set ready (maxSocket + 1) set socket6 = true)) ↔
    (P ∧ ((socket4 ≠ ENET_SOCKET_NULL ∧ plain socket4 = true) ∨
      (socket6 ≠ ENET_SOCKET_NULL ∧ plain socket6 = true))) := by
  have a4 : socket4 ≠ ENET_SOCKET_NULL →
      (select_set ready (maxSocket + 1) set socket4 = true ↔
        (P ∧ plain socket4 = true)) := by
    intro hn
    have h0 := (h4 hn).1
    have hle := hm4 hn
    rw [select_set_apply ready _ set socket4 h0 (by omega), hset socket4, (h4 hn).2]
    constructor
    · rintro ⟨⟨hp, _⟩, hr⟩
      exact ⟨hp, hr⟩
    · rintro ⟨hp, hr⟩
      exact ⟨⟨hp, Or.inl ⟨hn, rfl⟩⟩, hr⟩
  have a6 : socket6 ≠ ENET_SOCKET_NULL →
      (select_set ready (maxSocket + 1) set socket6 = true ↔
        (P ∧ plain socket6 = true)) := by
    intro hn
    have h0 := (h6 hn).1
    have hle := hm6 hn
    rw [select_set_apply ready _ set socket6 h0 (by omega), hset socket6, (h6 hn).2]
    constructor
    · rintro ⟨⟨hp, _⟩, hr⟩
      exact ⟨hp, hr⟩
    · rintro ⟨hp, hr⟩
      exact ⟨⟨hp, Or.inr ⟨hn, rfl⟩⟩, hr⟩
  constructor
  · rintro (⟨hn, hs⟩ | ⟨hn, hs⟩)
    · exact ⟨((a4 hn).1 hs).1, Or.inl ⟨hn, ((a4 hn).1 hs).2⟩⟩
    · exact ⟨((a6 hn).1 hs).1, Or.inr ⟨hn, ((a6 hn).1 hs).2⟩⟩
  · rintro ⟨hp, (⟨hn, hr⟩ | ⟨hn, hr⟩)⟩
    · exact Or.inl ⟨hn, (a4 hn).2 ⟨hp, hr⟩⟩
    · exact Or.inr ⟨hn, (a6 hn).2 ⟨hp, hr⟩⟩

theorem select_count_zero (ready : Int → Bool) (set : fd_set)
    (maxSocket socket4 socket6 : Int)
    (h4 : socket4 ≠ ENET_SOCKET_NULL → 0 ≤ socket4)
    (h6 : socket6 ≠ ENET_SOCKET_NULL → 0 ≤ socket6)
    (hm4 : socket4 ≠ ENET_SOCKET_NULL → socket4 ≤ maxSocket)
    (hm6 : socket6 ≠ ENET_SOCKET_NULL → socket6 ≤ maxSocket)
    (hcount : fd_count (maxSocket + 1) (select_set ready (maxSocket + 1) set) = 0) :
    ¬ ((socket4 ≠ ENET_SOCKET_NULL ∧ select_set ready (maxSocket + 1) set socket4 = true) ∨
      (socket6 ≠ ENET_SOCKET_NULL ∧ select_set ready (maxSocket + 1) set socket6 = true)) := by
  rintro (⟨hn, hs⟩ | ⟨hn, hs⟩)
  · have h0 := h4 hn
    have hle := hm4 hn
    have hfalse := fd_count_zero _ _ hcount socket4 h0 (by omega)
    rw [hfalse] at hs
    exact Bool.noConfusion hs
  · have h0 := h6 hn
    have hle := hm6 hn
    have hfalse := fd_count_zero _ _ hcount socket6 h0 (by omega)
    rw [hfalse] at hs
    exact Bool.noConfusion hs

theorem enet_socket_wait_select_eq (kernel : Kernel) (socket4 socket6 : Int)
    (condition timeout : Nat)
    (h4 : socket_quiet (kernel (some (timeout * 1000))) socket4)
    (h6 : socket_quiet (kernel (some (timeout * 1000))) socket6) :
    enet_socket_wait_select kernel socket4 socket6 condition timeout
      = some (wait_result (kernel (some (timeout * 1000))) socket4 socket6 condition) := by
  have hr4 : socket4 ≠ ENET_SOCKET_NULL → 0 ≤ socket4 ∧ socket4 < FD_SETSIZE :=
    fun hn => ⟨(quiet_facts _ socket4 h4 hn).1, (quiet_facts _ socket4 h4 hn).2.1⟩
  have hr6 : socket6 ≠ ENET_SOCKET_NULL → 0 ≤ socket6 ∧ socket6 < FD_SETSIZE :=
    fun hn => ⟨(quiet_facts _ socket6 h6 hn).1, (quiet_facts _ socket6 h6 hn).2.1⟩
  obtain ⟨sets, hsets, hrs, hws, hm4, hm6⟩ := fdsets_eq socket4 socket6 condition hr4 hr6
  obtain ⟨readSet, writeSet, maxSocket⟩ := sets
  dsimp only at hrs hws hm4 hm6
  unfold enet_socket_wait_select wait_result select
  rw [hsets]
  simp only [Option.bind_eq_bind, Option.some_bind, select_duration_eq timeout]
  generalize kernel (some (timeout * 1000)) = os at h4 h6 ⊢
  have hbad : select_bad os (maxSocket + 1) readSet writeSet = false := by
    apply select_bad_false
    intro fd hfd
    rcases hfd with hfd | hfd
    · rcases ((hrs fd).1 hfd).2 with ⟨hn, rfl⟩ | ⟨hn, rfl⟩
      · exact (quiet_facts os _ h4 hn).2.2.1
      · exact (quiet_facts os _ h6 hn).2.2.1
    · rcases ((hws fd).1 hfd).2 with ⟨hn, rfl⟩ | ⟨hn, rfl⟩
      · exact (quiet_facts os _ h4 hn).2.2.1
      · exact (quiet_facts os _ h6 hn).2.2.1
  have hq4r : socket4 ≠ ENET_SOCKET_NULL →
      0 ≤ socket4 ∧ select_readable os socket4 = os.readable socket4 := by
    intro hn
    obtain ⟨h0, _, _, he, hh⟩ := quiet_facts os socket4 h4 hn
    exact ⟨h0, by simp [select_readable, he, hh]⟩
  have hq6r : socket6 ≠ ENET_SOCKET_NULL →
      0 ≤ socket6 ∧ select_readable os socket6 = os.readable socket6 := by
    intro hn
    obtain ⟨h0, _, _, he, hh⟩ := quiet_facts os socket6 h6 hn
    exact ⟨h0, by simp [select_readable, he, hh]⟩
  have hq4w : socket4 ≠ ENET_SOCKET_NULL →
      0 ≤ socket4 ∧ select_writable os socket4 = os.writable socket4 := by
    intro hn
    obtain ⟨h0, _, _, he, _⟩ := quiet_facts os socket4 h4 hn
    exact ⟨h0, by simp [select_writable, he]⟩
  have hq6w : socket6 ≠ ENET_SOCKET_NULL →
      0 ≤ socket6 ∧ select_writable os socket6 = os.writable socket6 := by
    intro hn
    obtain ⟨h0, _, _, he, _⟩ := quiet_facts os socket6 h6 hn
    exact ⟨h0, by simp [select_writable, he]⟩
  cases hf : os.failed
  · simp only [Option.bind_eq_bind, Option.some_bind, select_report, hf, hbad,
      Bool.false_eq_true, or_self, if_false]
    rw [select_result_eq _ _ _ _ _ _ (Int.ofNat_nonneg _) hr4 hr6]
    · exact congrArg some (congrArg (Prod.mk 0) (merge_congr _ _ _ _
        (select_side (select_writable os) os.writable writeSet maxSocket socket4 socket6 _
          hq4w hq6w hws hm4 hm6)
        (select_side (select_readable os) os.readable readSet maxSocket socket4 socket6 _
          hq4r hq6r hrs hm4 hm6) _ _ _))
    · intro hz
      have hz2 : fd_count (maxSocket + 1)
            (select_set (select_readable os) (maxSocket + 1) readSet) = 0 ∧
          fd_count (maxSocket + 1)
            (select_set (select_writable os) (maxSocket + 1) writeSet) = 0 := by
        omega
      exact ⟨select_count_zero (select_writable os) writeSet maxSocket socket4 socket6
          (fun hn => (hr4 hn).1) (fun hn => (hr6 hn).1) hm4 hm6 hz2.2,
        select_count_zero (select_readable os) readSet maxSocket socket4 socket6
          (fun hn => (hr4 hn).1) (fun hn => (hr6 hn).1) hm4 hm6 hz2.1⟩
  · simp [select_report, hf, enet_socket_wait_select_result]

/-- C3, as stated, fails: descriptor 3 is open, neither readable nor writable,
and has an error pending; waiting on it for `ENET_SOCKET_WAIT_RECEIVE`, the
`poll` branch returns 0 with `*condition = ENET_SOCKET_WAIT_NONE` (`poll`
reports only `POLLERR`, which the code does not look at) while the `select`
branch returns 0 with `*condition = ENET_SOCKET_WAIT_RECEIVE` (`select` keeps
the descriptor in the read set). -/
theorem enet_socket_wait_strategies_differ_on_pending_error :
    Readiness.pending_error.opened 3 = true ∧
    Readiness.pending_error.readable 3 = false ∧
    Readiness.pending_error.writable 3 = false ∧
    enet_socket_wait_poll (fun _ => Readiness.pending_error) 0 3 ENET_SOCKET_NULL
      ENET_SOCKET_WAIT_RECEIVE 10 = (0, ENET_SOCKET_WAIT_NONE) ∧
    enet_socket_wait_select (fun _ => Readiness.pending_error) 3 ENET_SOCKET_NULL
      ENET_SOCKET_WAIT_RECEIVE 10 = some (0, ENET_SOCKET_WAIT_RECEIVE) := by
  decide

/-- The two branches differ in the same way when a hang-up is pending instead
of an error: `poll` reports only `POLLHUP`, `select` keeps the descriptor in
the read set. -/
theorem enet_socket_wait_strategies_differ_on_pending_hangup :
    enet_socket_wait_poll (fun _ => Readiness.pending_hangup) 0 3 ENET_SOCKET_NULL
      ENET_SOCKET_WAIT_RECEIVE 10 = (0, ENET_SOCKET_WAIT_NONE) ∧
    enet_socket_wait_select (fun _ => Readiness.pending_hangup) 3 ENET_SOCKET_NULL
      ENET_SOCKET_WAIT_RECEIVE 10 = some (0, ENET_SOCKET_WAIT_RECEIVE) := by
  decide

/-- The two branches also differ on a descriptor that is not open: `poll`
reports `POLLNVAL` and the branch returns 0, `select` fails and the branch
returns -1. -/
theorem enet_socket_wait_strategies_differ_on_closed_descriptor :
    enet_socket_wait_poll (fun _ => Readiness.closed) 0 3 ENET_SOCKET_NULL
      ENET_SOCKET_WAIT_RECEIVE 10 = (0, ENET_SOCKET_WAIT_NONE) ∧
    enet_socket_wait_select (fun _ => Readiness.closed) 3 ENET_SOCKET_NULL
      ENET_SOCKET_WAIT_RECEIVE 10 = some (-1, ENET_SOCKET_WAIT_RECEIVE) := by
  decide

/-- The two branches also differ on an open descriptor at or above
`FD_SETSIZE`: the `poll` branch reports it, the `select` branch applies
`FD_SET` outside the capacity of the set. -/
theorem enet_socket_wait_strategies_differ_above_fd_setsize :
    enet_socket_wait_poll (fun _ => Readiness.large) 0 2000 ENET_SOCKET_NULL
      ENET_SOCKET_WAIT_RECEIVE 10 = (0, ENET_SOCKET_WAIT_RECEIVE) ∧
    enet_socket_wait_select (fun _ => Readiness.large) 2000 ENET_SOCKET_NULL
      ENET_SOCKET_WAIT_RECEIVE 10 = none := by
  decide

/-- The two branches also differ in how long they wait for a timeout of 2^31
milliseconds or more: converted to `int` it is negative, so `poll` waits
without limit, while `select` waits for the given time. -/
theorem enet_socket_wait_strategies_differ_on_large_timeout :
    poll_duration (to_int 4294967295) = none ∧
    select_duration ⟨4294967, 295000⟩ = some 4294967295000 ∧
    enet_socket_wait_poll Kernel.slow 0 3 ENET_SOCKET_NULL
      ENET_SOCKET_WAIT_RECEIVE 4294967295 = (0, ENET_SOCKET_WAIT_RECEIVE) ∧
    enet_socket_wait_select Kernel.slow 3 ENET_SOCKET_NULL
      ENET_SOCKET_WAIT_RECEIVE 4294967295 = some (0, ENET_SOCKET_WAIT_NONE) := by
  decide

/-- C3, amended: for every kernel, every timeout below 2^31 milliseconds,
every interest mask, whatever the uninitialised `revents` held, and every pair
of handles each of which is `ENET_SOCKET_NULL` or an open descriptor below
`FD_SETSIZE` with no error or hang-up condition pending, the `select` branch
of `enet_socket_wait` is defined and gives the same return code and the same
`*condition` as the `poll` branch: -1 with `*condition` untouched when the
call fails, otherwise 0 with the requested interests that are ready on either
socket (`ENET_SOCKET_WAIT_NONE` on timeout). -/
theorem enet_socket_wait_strategies_agree_when_quiet (kernel : Kernel) (revents0 : Nat)
    (socket4 socket6 : Int) (condition timeout : Nat) (ht : timeout < 2147483648)
    (h4 : socket_quiet (kernel (some (timeout * 1000))) socket4)
    (h6 : socket_quiet (kernel (some (timeout * 1000))) socket6) :
    enet_socket_wait_select kernel socket4 socket6 condition timeout
      = some (enet_socket_wait_poll kernel revents0 socket4 socket6 condition timeout) ∧
    enet_socket_wait_poll kernel revents0 socket4 socket6 condition timeout
      = wait_result (kernel (some (timeout * 1000))) socket4 socket6 condition := by
  have hp := enet_socket_wait_poll_eq kernel revents0 socket4 socket6 condition timeout ht h4 h6
  have hs := enet_socket_wait_select_eq kernel socket4 socket6 condition timeout h4 h6
  exact ⟨by rw [hs, hp], hp⟩

theorem enet_socket_wait_strategies_agree_when_quiet_witness :
    enet_socket_wait_select (fun _ => Readiness.sample) 3 4 3 10
      = some (enet_socket_wait_poll (fun _ => Readiness.sample) 77 3 4 3 10) ∧
    enet_socket_wait_poll (fun _ => Readiness.sample) 77 3 4 3 10
      = wait_result Readiness.sample 3 4 3 :=
  enet_socket_wait_strategies_agree_when_quiet (fun _ => Readiness.sample) 77 3 4 3 10
    (by decide) (by decide) (by decide)

end ENet
